import Mathlib

/-!
# Location-aware product search: geo bounding box and predicate-based search

A shallow embedding of the Go repository `mustafadubul/product`:

* `pkg/geo/geo.go`                 : `geo.Destination`, `geo.BoundingBox`
* `internal/domain/domain.go`      : `domain.Point`, `domain.Product`, `domain.Query`
* `internal/repository`            : the `repository.Product` interface and its errors
* `internal/repository/sqlite`     : `sqlite.DB.Search`, `sqlite.DB.Like`, `sqlite.DB.Between`
* `internal/service/service.go`    : `service.Service.Search`
* `internal/handler/http/http.go`  : `http.validateSearchInput`, `http.Handler.Search`

Numbers: `pkg/geo` is embedded twice.

* `geo.Destination` and `geo.BoundingBox` read Go `float64` values as real
  numbers and the arithmetic as exact (no rounding, no NaN, no infinities, a
  single zero): `math.Sin`, `math.Cos`, `math.Asin` are the real functions,
  `math.Atan2` is the argument of the point `(x, y)` and `math.Mod` is the
  truncated remainder.  Statements about them are statements about exact
  arithmetic; those that settle a claim compare values that differ by far
  more than any rounding error.
* `geo64.Destination` and `geo64.BoundingBox` run on a float64 arithmetic
  `float64.Arith`: every operation rounds, and `math.Asin` returns NaN outside
  `[-1, 1]`.  Statements about them hold for every arithmetic that satisfies
  `float64.Arith.Laws`; exact arithmetic (`float64.exact`) is one of them.
-/

/-! ## Go errors -/

/-- Go `error` values as far as the repository uses them: a sentinel made by
`errors.New` (identified by the package-level variable that holds it, since two
`errors.New` calls with the same text are different values) and a value made by
`fmt.Errorf` with a `%w` verb, which wraps another error. -/
inductive Error where
  | New (ident : String) (text : String)
  | Errorf (format : String) (err : Error)
  deriving DecidableEq, Repr

namespace errors

/-- Go `errors.Is`: walk the chain of wrapped errors, comparing each link with
the target. -/
def Is : Error → Error → Bool
  | Error.New ident text, target => decide (Error.New ident text = target)
  | Error.Errorf format err, target =>
      decide (Error.Errorf format err = target) || Is err target

end errors

/-! ## `internal/domain` -/

namespace domain

/-- Go `domain.Product`. -/
structure Product where
  ID : Nat
  ItemName : String
  Lat : ℝ
  Lng : ℝ
  ImageURL : String
  URL : String

/-- Go `domain.Query`. -/
structure Query where
  Term : String
  Lat : ℝ
  Lng : ℝ
  Radius : ℝ

/-- Go `domain.Point`: `X` is a latitude and `Y` a longitude, in degrees. -/
@[ext]
structure Point where
  X : ℝ
  Y : ℝ

end domain

/-! ## Go `math` -/

namespace math

/-- Round towards zero. -/
noncomputable def Trunc (r : ℝ) : ℤ :=
  if 0 ≤ r then ⌊r⌋ else ⌈r⌉

/-- Go `math.Mod(x, y)`: the remainder of `x / y` with the sign of `x`, that
is `x - y * trunc (x / y)`.  (Go returns NaN for `y = 0`; the model is used with
`y = 2π` only.) -/
noncomputable def Mod (x y : ℝ) : ℝ :=
  x - y * (Trunc (x / y) : ℝ)

/-- Go `math.Atan2(y, x)`: the angle of the point `(x, y)`, in `(-π, π]`, with
`Atan2(0, 0) = 0`. -/
noncomputable def Atan2 (y x : ℝ) : ℝ :=
  Complex.arg ⟨x, y⟩

end math

/-! ## `pkg/geo` -/

namespace geo

/-- Go constant `earthRadius`. -/
def earthRadius : ℝ := 6371000

/-- Go `geo.Destination`, line by line.  Note that `sinφ2` takes the cosine of
`bearing` (the argument, in degrees) while `y` takes the sine of `bearing2`
(the bearing in radians), exactly as in the source. -/
noncomputable def Destination (lat lng distance bearing : ℝ) : domain.Point :=
  let dr := distance / earthRadius
  let bearing2 := bearing * (Real.pi / 180.0)
  let lat1 := lat * (Real.pi / 180.0)
  let lng1 := lng * (Real.pi / 180.0)
  let sinφ1 := Real.sin lat1 * Real.cos dr
  let sinφ2 := Real.cos lat1 * Real.sin dr * Real.cos bearing
  let lat2 := Real.arcsin (sinφ1 + sinφ2)
  let y := Real.sin bearing2 * Real.sin dr * Real.cos lat1
  let x := Real.cos dr - (Real.sin lat1 * Real.sin lat2)
  let lng2 := lng1 + math.Atan2 y x
  let lng2 := math.Mod (lng2 + 3 * Real.pi) (2 * Real.pi) - Real.pi
  { X := lat2 * (180.0 / Real.pi)
    Y := lng2 * (180.0 / Real.pi) }

/-- Go `geo.BoundingBox`. -/
noncomputable def BoundingBox (lat lng distance : ℝ) : List domain.Point :=
  let top := Destination lat lng distance 0
  let right := Destination lat lng distance 90
  let bottom := Destination lat lng distance 180
  let left := Destination lat lng distance 270
  let points := [top, right, bottom, left]
  points

end geo

/-! ## `internal/repository` -/

namespace repository

/-- Go `repository.ErrNotFound`. -/
def ErrNotFound : Error := Error.New "repository.ErrNotFound" "not found"

/-- Go `repository.ErrFatal`. -/
def ErrFatal : Error := Error.New "repository.ErrFatal" "fatal error"

/-- Go interface `repository.Product`, the three methods a search uses.  `σ` is
the state of the implementation and `F` the type of the `func() error` values
it hands out.  A Go result `([]domain.Product, error)` is a pair of a list and
an optional error; the outcome of `Search` is `none` when the call does not
return (a run-time panic). -/
structure Product (σ F : Type) where
  Search : List F → σ → σ × Option (List domain.Product × Option Error)
  Like : String → σ → F × σ
  Between : List domain.Point → σ → F × σ

/-- One call received by a `repository.Product`. -/
inductive Call (F : Type) where
  | Between (points : List domain.Point)
  | Like (term : String)
  | Search (functions : List F)

/-- Is the logged call a call of `Search`? -/
def Call.isSearch {F : Type} : Call F → Bool
  | Call.Search _ => true
  | _ => false

/-- Is the logged call a call of `Like`? -/
def Call.isLike {F : Type} : Call F → Bool
  | Call.Like _ => true
  | _ => false

/-- The same collaborator, keeping a log of the calls it receives, in order. -/
def Product.traced {σ F : Type} (r : Product σ F) : Product (σ × List (Call F)) F where
  Search := fun functions st =>
    (((r.Search functions st.1).1, st.2 ++ [Call.Search functions]),
      (r.Search functions st.1).2)
  Like := fun term st =>
    ((r.Like term st.1).1, ((r.Like term st.1).2, st.2 ++ [Call.Like term]))
  Between := fun points st =>
    ((r.Between points st.1).1, ((r.Between points st.1).2, st.2 ++ [Call.Between points]))

end repository

/-! ## The SQL engine behind `gorm` -/

namespace gorm

/-- The SQLite `LIKE` operator on character lists: `%` matches any run of
characters, `_` matches one character, any other character matches itself
without regard to ASCII case. -/
def like : List Char → List Char → Bool
  | [], [] => true
  | [], _ :: _ => false
  | p :: ps, [] => if p = '%' then like ps [] else false
  | p :: ps, c :: cs =>
      if p = '%' then like ps (c :: cs) || like (p :: ps) cs
      else if p = '_' then like ps cs
      else decide (p.toLower = c.toLower) && like ps cs
termination_by pattern text => pattern.length + text.length

/-- The two `WHERE` conditions the repository issues, with their arguments in
the order of the `?` placeholders:
`"lat > ? AND lat < ? AND lng < ? AND lng > ?"` and `"item_name LIKE ? "`. -/
inductive Condition where
  | latLng (a b c d : ℝ)
  | itemNameLike (pattern : String)

/-- Does a row of table `items` satisfy a condition? -/
noncomputable def Condition.holds : Condition → domain.Product → Bool
  | Condition.latLng a b c d, p =>
      decide (p.Lat > a) && decide (p.Lat < b) && decide (p.Lng < c) && decide (p.Lng > d)
  | Condition.itemNameLike pattern, p => like pattern.toList p.ItemName.toList

/-- A `*gorm.DB` handle: the rows of table `items` behind the connection, the
`WHERE` conditions collected so far, and the handle's `Error` field. -/
structure DB where
  items : List domain.Product
  whereConditions : List Condition
  Error : Option Error

/-- Go `(*gorm.DB).Where`: a copy of the handle with one more condition. -/
def DB.Where (s : DB) (c : Condition) : DB :=
  { s with whereConditions := s.whereConditions ++ [c] }

/-- Go `(*gorm.DB).Find(&products)`: the rows that satisfy every collected
condition, in table order; nothing is read when the handle carries an error. -/
noncomputable def DB.Find (s : DB) : DB × List domain.Product :=
  match s.Error with
  | some _ => (s, [])
  | none => (s, s.items.filter (fun p => s.whereConditions.all (fun c => c.holds p)))

end gorm

/-! ## `internal/repository/sqlite` -/

namespace sqlite

/-- Go `sqlite.DB` (the logger left out).  `tx` is `nil` until `Search` sets
it. -/
structure DB where
  db : gorm.DB
  tx : Option gorm.DB

/-- A Go `func() error` closure over the receiver `d`: run on the current
state of `d`, it gives the new state and the error returned, or `none` when
it panics. -/
abbrev Func : Type := DB → Option (DB × Option Error)

/-- Go `sqlite.New`. -/
def New (db : gorm.DB) : DB :=
  { db := db, tx := none }

/-- Go `(*DB).Like`. -/
def DB.Like (term : String) : Func := fun d =>
  match d.tx with
  | none => none
  | some tx =>
      let tx := tx.Where (gorm.Condition.itemNameLike ("%" ++ term ++ "%"))
      some ({ d with tx := some tx }, tx.Error)

/-- Go `(*DB).Between`: indexing `points` beyond its length panics. -/
def DB.Between (points : List domain.Point) : Func := fun d =>
  match points[2]?, points[0]?, points[1]?, points[3]?, d.tx with
  | some p2, some p0, some p1, some p3, some tx =>
      let tx := tx.Where (gorm.Condition.latLng p2.X p0.X p1.Y p3.Y)
      some ({ d with tx := some tx }, tx.Error)
  | _, _, _, _, _ => none

/-- The body of `(*DB).Search` after `d.tx = d.db`: run the closures in order,
stopping at the first error, then `Find`. -/
noncomputable def DB.Search.loop :
    List Func → DB → DB × Option (List domain.Product × Option Error)
  | [], d =>
      match d.tx with
      | none => (d, none)
      | some tx =>
          match (tx.Find).1.Error with
          | some err => (d, some ([], some err))
          | none => (d, some ((tx.Find).2, none))
  | f :: functions, d =>
      match f d with
      | none => (d, none)
      | some (d, some err) => (d, some ([], some err))
      | some (d, none) => DB.Search.loop functions d

/-- Go `(*DB).Search`. -/
noncomputable def DB.Search (functions : List Func) (d : DB) :
    DB × Option (List domain.Product × Option Error) :=
  DB.Search.loop functions { d with tx := some d.db }

/-- The `sqlite.DB` methods as an implementation of `repository.Product`. -/
noncomputable def DB.Product : repository.Product DB Func where
  Search := DB.Search
  Like := fun term d => (DB.Like term, d)
  Between := fun points d => (DB.Between points, d)

end sqlite

/-! ## `internal/service` -/

namespace service

/-- Go `service.ErrNotFound`. -/
def ErrNotFound : Error := Error.New "service.ErrNotFound" "not found"

/-- Go `service.ErrRequestFailed`. -/
def ErrRequestFailed : Error := Error.New "service.ErrRequestFailed" "request failed"

/-- Go `service.ErrInputInvalid`. -/
def ErrInputInvalid : Error := Error.New "service.ErrInputInvalid" "input invalid"

/-- Go `service.Service` (context and logger left out: they do not influence
what is computed). -/
structure Service (σ F : Type) where
  products : repository.Product σ F

/-- Go `(*Service).Search`, with the state `st` of the collaborator passed
explicitly; the outcome is `none` when the collaborator's `Search` panics. -/
noncomputable def Service.Search {σ F : Type} (s : Service σ F) (q : domain.Query) (st : σ) :
    σ × Option (List domain.Product × Option Error) :=
  let queryFunctions : List F := []
  let points := geo.BoundingBox q.Lat q.Lng q.Radius
  let between := s.products.Between points st
  let queryFunctions := queryFunctions ++ [between.1]
  let withLike :=
    if q.Term ≠ "" then
      let like := s.products.Like q.Term between.2
      (queryFunctions ++ [like.1], like.2)
    else
      (queryFunctions, between.2)
  match s.products.Search withLike.1 withLike.2 with
  | (st, none) => (st, none)
  | (st, some (products, err)) =>
      match err with
      | some err =>
          if !errors.Is err repository.ErrNotFound then
            (st, some ([], some (Error.Errorf "failed to search products: %w" ErrRequestFailed)))
          else
            (st, some ([], some (Error.Errorf "product not found: %w" ErrNotFound)))
      | none => (st, some (products, none))

end service

/-! ## `internal/handler/http` -/

namespace fmt

/-- Go `fmt.Errorf` with a format without verbs: a new error carrying the text.
It is tagged `fmt.Errorf`, so that it differs from every sentinel. -/
def Errorf (text : String) : Error := Error.New "fmt.Errorf" text

end fmt

namespace url

/-- Go `url.Values`, a `map[string][]string`, as the list of its entries. -/
abbrev Values : Type := List (String × List String)

/-- Go `url.Values.Get`: the first value stored under the key, or the empty
string when there is none. -/
def Values.Get (v : Values) (key : String) : String :=
  match List.lookup key v with
  | some (value :: _) => value
  | _ => ""

end url

namespace http

/-- Go `http.StatusOK`. -/
def StatusOK : Nat := 200

/-- Go `http.StatusBadRequest`. -/
def StatusBadRequest : Nat := 400

/-- Go `http.StatusInternalServerError`. -/
def StatusInternalServerError : Nat := 500

/-- Go `validateSearchInput`.  The Go result `(*domain.Query, error)` is either
`(nil, err)` or `(&query, nil)`, hence an `Except`.  `ParseFloat s` stands for
`strconv.ParseFloat(s, 64)`, which is not part of the repository: it gives the
parsed number or the error.  The message for an unparsable radius is the one of
the source. -/
def validateSearchInput (ParseFloat : String → Except Error ℝ) (v : url.Values) :
    Except Error domain.Query :=
  if v.Get "lat" = "" then
    Except.error (fmt.Errorf "missing lat")
  else
    match ParseFloat (v.Get "lat") with
    | Except.error _ => Except.error (fmt.Errorf "lat invalid value")
    | Except.ok lat =>
        if v.Get "lng" = "" then
          Except.error (fmt.Errorf "missing lng")
        else
          match ParseFloat (v.Get "lng") with
          | Except.error _ => Except.error (fmt.Errorf "lng invalid value")
          | Except.ok lng =>
              if v.Get "radius" = "" then
                Except.error (fmt.Errorf "missing radius")
              else
                match ParseFloat (v.Get "radius") with
                | Except.error _ => Except.error (fmt.Errorf "lng invalid value")
                | Except.ok radius =>
                    Except.ok { Lat := lat, Lng := lng, Radius := radius, Term := v.Get "term" }

/-- Go interface `http.Service`, the `Search` method, with the state of the
implementation passed explicitly. -/
structure Service (σ : Type) where
  Search : domain.Query → σ → σ × Option (List domain.Product × Option Error)

/-- Go `*service.Service` used as an `http.Service`, as `cmd/app/main.go` wires
it. -/
noncomputable def Service.ofService {σ F : Type} (s : service.Service σ F) : Service σ where
  Search := fun q st => s.Search q st

/-- Go `http.Handler` (the logger left out). -/
structure Handler (σ : Type) where
  service : Service σ

/-- The data a handler hands to `writeJSON`: the products found, or an
`ErrorStatus` made from an error (its JSON form carries `err.Error()`). -/
inductive Body where
  | products (results : List domain.Product)
  | ErrorStatus (err : Error)

/-- What a handler writes: the status code and the body. -/
structure Response where
  Status : Nat
  Body : Body

/-- Go `writeJSON` (the encoding of the body is not modelled). -/
def writeJSON (status : Nat) (data : Body) : Response :=
  { Status := status, Body := data }

/-- Go `writeError`. -/
def writeError (status : Nat) (err : Error) : Response :=
  writeJSON status (Body.ErrorStatus err)

/-- Go `(*Handler).Search` on the raw query string of the request.
`ParseQuery` stands for `url.ParseQuery` and `ParseFloat` for
`strconv.ParseFloat(·, 64)`.  The response is `none` when the service call
panics. -/
def Handler.Search {σ : Type} (ParseQuery : String → Except Error url.Values)
    (ParseFloat : String → Except Error ℝ) (h : Handler σ) (rawQuery : String) (st : σ) :
    σ × Option Response :=
  match ParseQuery rawQuery with
  | Except.error err => (st, some (writeError StatusBadRequest err))
  | Except.ok q =>
      match validateSearchInput ParseFloat q with
      | Except.error err => (st, some (writeError StatusBadRequest err))
      | Except.ok query =>
          match h.service.Search query st with
          | (st, none) => (st, none)
          | (st, some (results, some err)) =>
              if !errors.Is err repository.ErrNotFound then
                (st, some (writeError StatusInternalServerError err))
              else
                (st, some (writeJSON StatusOK (Body.products results)))
          | (st, some (results, none)) =>
              (st, some (writeJSON StatusOK (Body.products results)))

end http

/-! ## `pkg/geo` with float64 rounding and NaN -/

namespace float64

/-- The float64 arithmetic that `geo.Destination` runs on.  A finite float64
value is the real number it denotes.  `round` rounds the exact result of an
arithmetic operation, or an exact constant, to a float64; `Sin`, `Cos`, `Asin`
and `Atan2` are the functions of Go's `math` package on float64 values, with
`Asin x = none` when `math.Asin` returns NaN.  (Infinities are left out: no
operation of `Destination` overflows on finite arguments of the sizes a query
has.) -/
structure Arith where
  round : ℝ → ℝ
  Sin : ℝ → ℝ
  Cos : ℝ → ℝ
  Asin : ℝ → Option ℝ
  Atan2 : ℝ → ℝ → ℝ

/-- The facts about float64 arithmetic and Go's `math` functions that the
theorems use.  Rounding is monotone, odd and idempotent, and keeps 1;
`float64(2π)` is twice `math.Pi`; `180 * float64(π/180)` rounds to `math.Pi`;
`math.Pi * float64(180/π)` rounds to 180 and `float64(π/2) * float64(180/π)` to
90; `math.Sin(0) = 0`; `math.Asin` returns NaN exactly outside `[-1, 1]` and
otherwise a value of absolute value at most `float64(π/2)`; `math.Atan2`
returns a value of absolute value at most `math.Pi`.  In float64 the constants
are `math.Pi = 3.141592653589793`, `float64(π/180) = 0.017453292519943295`,
`float64(180/π) = 57.29577951308232` and `float64(π/2) = 1.5707963267948966`. -/
structure Arith.Laws (A : Arith) : Prop where
  round_mono : ∀ x y : ℝ, x ≤ y → A.round x ≤ A.round y
  round_neg : ∀ x : ℝ, A.round (-x) = -A.round x
  round_round : ∀ x : ℝ, A.round (A.round x) = A.round x
  round_one : A.round 1 = 1
  two_pi : A.round (2 * Real.pi) = 2 * A.round Real.pi
  deg_180 : A.round (180 * A.round (Real.pi / 180)) = A.round Real.pi
  rad_180 : A.round (A.round Real.pi * A.round (180 / Real.pi)) = 180
  rad_90 : A.round (A.round (Real.pi / 2) * A.round (180 / Real.pi)) = 90
  Sin_zero : A.Sin 0 = 0
  Asin_none : ∀ x : ℝ, A.Asin x = none ↔ 1 < |x|
  Asin_range : ∀ x v : ℝ, A.Asin x = some v → |v| ≤ A.round (Real.pi / 2)
  Atan2_range : ∀ y x : ℝ, |A.Atan2 y x| ≤ A.round Real.pi

/-- Exact arithmetic: nothing is rounded and the functions are the real ones,
the arcsine being undefined outside `[-1, 1]`. -/
noncomputable def exact : Arith where
  round := fun x => x
  Sin := Real.sin
  Cos := Real.cos
  Asin := fun x => if |x| ≤ 1 then some (Real.arcsin x) else none
  Atan2 := math.Atan2

end float64

namespace geo64

/-- Go `geo.Destination` on float64 arithmetic `A`, line by line: every
operation rounds, and the constants `math.Pi / 180.0`, `3*math.Pi`,
`2*math.Pi`, `math.Pi` and `180.0 / math.Pi` are rounded once, as Go evaluates
constant expressions exactly.  The result is `none` when `math.Asin` returns
NaN: the NaN then runs through every later operation and the code returns the
point `(NaN, NaN)`.  `math.Mod` is exact in float64. -/
noncomputable def Destination (A : float64.Arith) (lat lng distance bearing : ℝ) :
    Option domain.Point :=
  let dr := A.round (distance / geo.earthRadius)
  let bearing2 := A.round (bearing * A.round (Real.pi / 180.0))
  let lat1 := A.round (lat * A.round (Real.pi / 180.0))
  let lng1 := A.round (lng * A.round (Real.pi / 180.0))
  let sinφ1 := A.round (A.Sin lat1 * A.Cos dr)
  let sinφ2 := A.round (A.round (A.Cos lat1 * A.Sin dr) * A.Cos bearing)
  match A.Asin (A.round (sinφ1 + sinφ2)) with
  | none => none
  | some lat2 =>
      let y := A.round (A.round (A.Sin bearing2 * A.Sin dr) * A.Cos lat1)
      let x := A.round (A.Cos dr - A.round (A.Sin lat1 * A.Sin lat2))
      let lng2 := A.round (lng1 + A.Atan2 y x)
      let lng2 := A.round (math.Mod (A.round (lng2 + A.round (3 * Real.pi)))
        (A.round (2 * Real.pi)) - A.round Real.pi)
      some { X := A.round (lat2 * A.round (180.0 / Real.pi))
             Y := A.round (lng2 * A.round (180.0 / Real.pi)) }

/-- Go `geo.BoundingBox` on float64 arithmetic `A`. -/
noncomputable def BoundingBox (A : float64.Arith) (lat lng distance : ℝ) :
    List (Option domain.Point) :=
  let top := Destination A lat lng distance 0
  let right := Destination A lat lng distance 90
  let bottom := Destination A lat lng distance 180
  let left := Destination A lat lng distance 270
  let points := [top, right, bottom, left]
  points

end geo64

/-! ## Theorems -/

/-- C2: `BoundingBox lat lng radius` is a list of exactly four points, which
are in this order the destinations at bearings 0 (north), 90 (east), 180
(south) and 270 (west). -/
theorem BoundingBox_four_corners (lat lng radius : ℝ) :
    geo.BoundingBox lat lng radius =
        [geo.Destination lat lng radius 0, geo.Destination lat lng radius 90,
         geo.Destination lat lng radius 180, geo.Destination lat lng radius 270] ∧
      (geo.BoundingBox lat lng radius).length = 4 :=
  ⟨rfl, rfl⟩

/-! ### Facts about the Go `math` model -/

/-- For a non-negative dividend and a positive modulus, `math.Mod` is the usual
remainder: it lies in `[0, y)`. -/
theorem math_Mod_bounds (x y : ℝ) (hx : 0 ≤ x) (hy : 0 < y) :
    0 ≤ math.Mod x y ∧ math.Mod x y < y := by
  have hq : 0 ≤ x / y := div_nonneg hx hy.le
  have h1 : ((⌊x / y⌋ : ℤ) : ℝ) ≤ x / y := Int.floor_le _
  have h2 : x / y < ((⌊x / y⌋ : ℤ) : ℝ) + 1 := Int.lt_floor_add_one _
  have hxy : y * (x / y) = x := by field_simp
  unfold math.Mod math.Trunc
  rw [if_pos hq]
  constructor
  · nlinarith [mul_le_mul_of_nonneg_left h1 hy.le]
  · nlinarith [mul_lt_mul_of_pos_left h2 hy]

/-- When the quotient `x / y` lies in `[k, k + 1)` for a natural number `k`,
`math.Mod x y` is `x - k * y`. -/
theorem math_Mod_eq_sub (x y : ℝ) (k : ℕ) (hy : 0 < y) (h1 : (k : ℝ) * y ≤ x)
    (h2 : x < ((k : ℝ) + 1) * y) : math.Mod x y = x - k * y := by
  have hq1 : (k : ℝ) ≤ x / y := by rw [le_div_iff₀ hy]; exact h1
  have hq2 : x / y < (k : ℝ) + 1 := by rw [div_lt_iff₀ hy]; exact h2
  have hq : 0 ≤ x / y := le_trans (Nat.cast_nonneg k) hq1
  have hfl : ⌊x / y⌋ = (k : ℤ) := by
    rw [Int.floor_eq_iff]
    exact ⟨by exact_mod_cast hq1, by exact_mod_cast hq2⟩
  unfold math.Mod math.Trunc
  rw [if_pos hq, hfl]
  push_cast
  ring

/-- The angle returned by `math.Atan2` lies in `[-π, π]`. -/
theorem math_Atan2_bounds (y x : ℝ) :
    -Real.pi ≤ math.Atan2 y x ∧ math.Atan2 y x ≤ Real.pi :=
  ⟨(Complex.neg_pi_lt_arg _).le, Complex.arg_le_pi _⟩

/-- On the non-negative horizontal axis `math.Atan2` is zero. -/
theorem math_Atan2_zero_left (x : ℝ) (hx : 0 ≤ x) : math.Atan2 0 x = 0 := by
  have h : (⟨x, 0⟩ : ℂ) = ((x : ℝ) : ℂ) := rfl
  unfold math.Atan2
  rw [h]
  exact Complex.arg_ofReal_of_nonneg hx

/-! ### `geo.Destination` -/

/-- The latitude computed by `Destination`, in degrees. -/
theorem Destination_X_eq (lat lng distance bearing : ℝ) :
    (geo.Destination lat lng distance bearing).X =
      Real.arcsin (Real.sin (lat * (Real.pi / 180)) * Real.cos (distance / 6371000) +
        Real.cos (lat * (Real.pi / 180)) * Real.sin (distance / 6371000) * Real.cos bearing) *
        (180 / Real.pi) := by
  simp only [geo.Destination, geo.earthRadius]
  norm_num

/-- The longitude computed by `Destination`, in degrees. -/
theorem Destination_Y_eq (lat lng distance bearing : ℝ) :
    (geo.Destination lat lng distance bearing).Y =
      (math.Mod (lng * (Real.pi / 180) +
          math.Atan2
            (Real.sin (bearing * (Real.pi / 180)) * Real.sin (distance / 6371000) *
              Real.cos (lat * (Real.pi / 180)))
            (Real.cos (distance / 6371000) - Real.sin (lat * (Real.pi / 180)) *
              Real.sin ((geo.Destination lat lng distance bearing).X * (Real.pi / 180))) +
          3 * Real.pi) (2 * Real.pi) - Real.pi) * (180 / Real.pi) := by
  have hpi : Real.pi ≠ 0 := Real.pi_ne_zero
  have hX : (geo.Destination lat lng distance bearing).X * (Real.pi / 180) =
      Real.arcsin (Real.sin (lat * (Real.pi / 180)) * Real.cos (distance / 6371000) +
        Real.cos (lat * (Real.pi / 180)) * Real.sin (distance / 6371000) * Real.cos bearing) := by
    rw [Destination_X_eq]
    field_simp
  rw [hX]
  simp only [geo.Destination, geo.earthRadius]
  norm_num

/-- The cosine of 90 (radians) is not zero: 90 is not an odd multiple of `π / 2`,
because `π` is irrational. -/
theorem cos_ninety_ne_zero : Real.cos 90 ≠ 0 := by
  intro h
  obtain ⟨k, hk⟩ := Real.cos_eq_zero_iff.mp h
  have hodd : (2 * (k : ℝ) + 1) ≠ 0 := by
    have hz : (2 * k + 1 : ℤ) ≠ 0 := by omega
    exact_mod_cast hz
  have hpi : Real.pi = ((180 / (2 * (k : ℚ) + 1) : ℚ) : ℝ) := by
    push_cast
    field_simp
    linarith
  exact irrational_pi ⟨_, hpi.symm⟩

/-- C1 (the code at the failing input): for `Destination 0 0 6371000 90` the
latitude in radians is `asin (sin 1 * cos 90)`, the cosine being taken of the
bearing in degrees, and this differs from the value of the forward formula
`asin (sin φ * cos δ + cos φ * sin δ * cos θ)` with `θ = 90·π/180`, which is 0. -/
theorem Destination_latitude_takes_cos_of_degrees :
    (geo.Destination 0 0 6371000 90).X * (Real.pi / 180) =
        Real.arcsin (Real.sin 1 * Real.cos 90) ∧
      Real.arcsin (Real.sin (0 * Real.pi / 180) * Real.cos (6371000 / 6371000) +
          Real.cos (0 * Real.pi / 180) * Real.sin (6371000 / 6371000) *
            Real.cos (90 * Real.pi / 180)) = 0 ∧
      (geo.Destination 0 0 6371000 90).X * (Real.pi / 180) ≠
        Real.arcsin (Real.sin (0 * Real.pi / 180) * Real.cos (6371000 / 6371000) +
          Real.cos (0 * Real.pi / 180) * Real.sin (6371000 / 6371000) *
            Real.cos (90 * Real.pi / 180)) := by
  have hpi : Real.pi ≠ 0 := Real.pi_ne_zero
  have hcode : (geo.Destination 0 0 6371000 90).X * (Real.pi / 180) =
      Real.arcsin (Real.sin 1 * Real.cos 90) := by
    rw [Destination_X_eq]
    have h1 : (6371000 : ℝ) / 6371000 = 1 := by norm_num
    rw [h1]
    simp only [zero_mul, Real.sin_zero, Real.cos_zero, one_mul, zero_add]
    field_simp
  have hspec : Real.arcsin (Real.sin (0 * Real.pi / 180) * Real.cos (6371000 / 6371000) +
      Real.cos (0 * Real.pi / 180) * Real.sin (6371000 / 6371000) *
        Real.cos (90 * Real.pi / 180)) = 0 := by
    have h2 : (90 : ℝ) * Real.pi / 180 = Real.pi / 2 := by ring
    rw [h2, Real.cos_pi_div_two]
    simp
  refine ⟨hcode, hspec, ?_⟩
  rw [hcode, hspec]
  intro h0
  rw [Real.arcsin_eq_zero_iff] at h0
  have hsin : 0 < Real.sin 1 :=
    Real.sin_pos_of_pos_of_lt_pi one_pos (by linarith [Real.pi_gt_three])
  rcases mul_eq_zero.mp h0 with h | h
  · exact hsin.ne.symm h
  · exact cos_ninety_ne_zero h

/-- In exact arithmetic the latitude of every destination lies in `[-90, 90]`,
whatever the arguments: it is an arcsine converted to degrees. -/
theorem Destination_X_bounds (lat lng distance bearing : ℝ) :
    -90 ≤ (geo.Destination lat lng distance bearing).X ∧
      (geo.Destination lat lng distance bearing).X ≤ 90 := by
  have hpi : 0 < Real.pi := Real.pi_pos
  have hk : 0 < 180 / Real.pi := by positivity
  have e1 : -(Real.pi / 2) * (180 / Real.pi) = -90 := by field_simp; ring
  have e2 : (Real.pi / 2) * (180 / Real.pi) = 90 := by field_simp; ring
  rw [Destination_X_eq]
  constructor
  · rw [← e1]
    exact mul_le_mul_of_nonneg_right (Real.neg_pi_div_two_le_arcsin _) hk.le
  · rw [← e2]
    exact mul_le_mul_of_nonneg_right (Real.arcsin_le_pi_div_two _) hk.le

/-- In exact arithmetic the wrap-around step `Mod (l + 3π) 2π - π`, converted to
degrees, lands in `[-180, 180)` for every angle `l = lng·π/180 + a` with `lng ∈ [-180, 180]` and
`a ∈ [-π, π]`. -/
theorem wrap_longitude_bounds (lng a : ℝ) (hlng : -180 ≤ lng ∧ lng ≤ 180)
    (ha : -Real.pi ≤ a ∧ a ≤ Real.pi) :
    -180 ≤ (math.Mod (lng * (Real.pi / 180) + a + 3 * Real.pi) (2 * Real.pi) - Real.pi) *
        (180 / Real.pi) ∧
      (math.Mod (lng * (Real.pi / 180) + a + 3 * Real.pi) (2 * Real.pi) - Real.pi) *
        (180 / Real.pi) < 180 := by
  have hpi : 0 < Real.pi := Real.pi_pos
  have hk : 0 < 180 / Real.pi := by positivity
  have e1 : -Real.pi * (180 / Real.pi) = -180 := by field_simp; ring
  have e2 : Real.pi * (180 / Real.pi) = 180 := by field_simp
  have hl1 : -Real.pi ≤ lng * (Real.pi / 180) := by nlinarith [hlng.1]
  have hx : 0 ≤ lng * (Real.pi / 180) + a + 3 * Real.pi := by linarith [ha.1]
  obtain ⟨hm1, hm2⟩ := math_Mod_bounds _ (2 * Real.pi) hx (by linarith)
  have hlo : -Real.pi ≤
      math.Mod (lng * (Real.pi / 180) + a + 3 * Real.pi) (2 * Real.pi) - Real.pi := by
    linarith
  have hhi :
      math.Mod (lng * (Real.pi / 180) + a + 3 * Real.pi) (2 * Real.pi) - Real.pi < Real.pi := by
    linarith
  have r1 := mul_le_mul_of_nonneg_right hlo hk.le
  have r2 := mul_lt_mul_of_pos_right hhi hk
  rw [e1] at r1
  rw [e2] at r2
  exact ⟨r1, r2⟩

/-- In exact arithmetic the longitude of a destination lies in `[-180, 180)` as
soon as the start longitude is in `[-180, 180]`. -/
theorem Destination_Y_bounds (lat lng distance bearing : ℝ)
    (hlng : -180 ≤ lng ∧ lng ≤ 180) :
    -180 ≤ (geo.Destination lat lng distance bearing).Y ∧
      (geo.Destination lat lng distance bearing).Y < 180 := by
  rw [Destination_Y_eq]
  exact wrap_longitude_bounds lng _ hlng (math_Atan2_bounds _ _)

/-- With distance 0 the latitude is unchanged, for a start latitude in
`[-90, 90]`. -/
theorem Destination_zero_X (lat lng bearing : ℝ) (hlat : -90 ≤ lat ∧ lat ≤ 90) :
    (geo.Destination lat lng 0 bearing).X = lat := by
  have hpi : 0 < Real.pi := Real.pi_pos
  have h1 : -(Real.pi / 2) ≤ lat * (Real.pi / 180) := by nlinarith [hlat.1]
  have h2 : lat * (Real.pi / 180) ≤ Real.pi / 2 := by nlinarith [hlat.2]
  rw [Destination_X_eq]
  simp only [zero_div, Real.sin_zero, Real.cos_zero, mul_one, mul_zero, zero_mul, add_zero]
  rw [Real.arcsin_sin h1 h2]
  field_simp

/-- With distance 0 the longitude goes through the wrap-around step only: it is
unchanged for a start longitude in `[-180, 180)`, and 180 becomes -180. -/
theorem Destination_zero_Y (lat lng bearing : ℝ) (hlat : -90 ≤ lat ∧ lat ≤ 90)
    (hlng : -180 ≤ lng ∧ lng ≤ 180) :
    (geo.Destination lat lng 0 bearing).Y = if lng = 180 then -180 else lng := by
  have hpi : 0 < Real.pi := Real.pi_pos
  have hne : Real.pi ≠ 0 := hpi.ne.symm
  have hX := Destination_zero_X lat lng bearing hlat
  rw [Destination_Y_eq, hX]
  simp only [zero_div, Real.sin_zero, Real.cos_zero, mul_zero, zero_mul]
  have hx : 0 ≤ 1 - Real.sin (lat * (Real.pi / 180)) * Real.sin (lat * (Real.pi / 180)) := by
    nlinarith [Real.sin_sq_add_cos_sq (lat * (Real.pi / 180)),
      sq_nonneg (Real.cos (lat * (Real.pi / 180)))]
  rw [math_Atan2_zero_left _ hx, add_zero]
  split_ifs with h180
  · subst h180
    rw [math_Mod_eq_sub _ _ 2 (by linarith) (by push_cast; nlinarith) (by push_cast; nlinarith)]
    push_cast
    field_simp
    ring
  · have hlt : lng < 180 := lt_of_le_of_ne hlng.2 h180
    rw [math_Mod_eq_sub _ _ 1 (by linarith) (by push_cast; nlinarith [hlng.1])
      (by push_cast; nlinarith)]
    push_cast
    field_simp
    ring

/-- C9 (counterexample): starting on the meridian 180 with distance 0, the
destination has longitude exactly -180, which is outside `(-180, 180]`, although
latitude 0, longitude 180, distance 0 and bearing 0 are all in the claimed
domain. -/
theorem Destination_longitude_reaches_minus_180 :
    (geo.Destination 0 180 0 0).Y = -180 ∧
      ¬ (-180 < (geo.Destination 0 180 0 0).Y ∧ (geo.Destination 0 180 0 0).Y ≤ 180) := by
  have h : (geo.Destination 0 180 0 0).Y = -180 := by
    rw [Destination_zero_Y 0 180 0 (by norm_num) (by norm_num)]
    simp
  refine ⟨h, ?_⟩
  rw [h]
  intro hc
  exact lt_irrefl _ hc.1

/-- With distance 0 every destination is the start point, except that the
longitude 180 is returned as -180. -/
theorem Destination_zero (lat lng bearing : ℝ) (hlat : -90 ≤ lat ∧ lat ≤ 90)
    (hlng : -180 ≤ lng ∧ lng ≤ 180) :
    geo.Destination lat lng 0 bearing =
      { X := lat, Y := if lng = 180 then -180 else lng } := by
  ext
  · exact Destination_zero_X lat lng bearing hlat
  · exact Destination_zero_Y lat lng bearing hlat hlng

/-- C10 (counterexample): for the centre `(0, 180)`, inside the claimed domain,
the four corners of `BoundingBox 0 180 0` are `(0, -180)`, so none of them
equals the centre `(0, 180)`. -/
theorem BoundingBox_zero_radius_at_180 :
    geo.BoundingBox 0 180 0 =
        [{ X := 0, Y := -180 }, { X := 0, Y := -180 }, { X := 0, Y := -180 },
         { X := 0, Y := -180 }] ∧
      ¬ (∀ p ∈ geo.BoundingBox 0 180 0, p = ({ X := 0, Y := 180 } : domain.Point)) := by
  have hd : ∀ b : ℝ, geo.Destination 0 180 0 b = { X := 0, Y := -180 } := by
    intro b
    rw [Destination_zero 0 180 b (by norm_num) (by norm_num)]
    simp
  have hb : geo.BoundingBox 0 180 0 =
      [{ X := 0, Y := -180 }, { X := 0, Y := -180 }, { X := 0, Y := -180 },
       { X := 0, Y := -180 }] := by
    simp only [geo.BoundingBox, hd]
  refine ⟨hb, ?_⟩
  rw [hb]
  intro hall
  have h0 := hall { X := 0, Y := -180 } (by simp)
  have hY := congrArg domain.Point.Y h0
  norm_num at hY

/-- In exact arithmetic, for every latitude in `[-90, 90]` and longitude in
`(-180, 180]`, `BoundingBox lat lng 0` is four equal points: each is
`(lat, lng)` when `lng < 180`, and `(lat, -180)` when `lng = 180`.  (In float64
the coordinates agree with these only up to rounding.) -/
theorem BoundingBox_zero_radius (lat lng : ℝ) (hlat : -90 ≤ lat ∧ lat ≤ 90)
    (hlng : -180 < lng ∧ lng ≤ 180) :
    geo.BoundingBox lat lng 0 =
      List.replicate 4 { X := lat, Y := if lng = 180 then -180 else lng } := by
  have hd := fun b : ℝ => Destination_zero lat lng b hlat ⟨hlng.1.le, hlng.2⟩
  simp only [geo.BoundingBox, hd, List.replicate]

/-! ### `sqlite.DB.Search` with the two predicates -/

/-- The row filter of the `lat`/`lng` condition, written as the four strict
inequalities. -/
theorem latLng_holds_iff (a b c d : ℝ) (x : domain.Product) :
    (gorm.Condition.latLng a b c d).holds x = true ↔
      a < x.Lat ∧ x.Lat < b ∧ d < x.Lng ∧ x.Lng < c := by
  simp only [gorm.Condition.holds, Bool.and_eq_true, decide_eq_true_eq, gt_iff_lt]
  tauto

/-- What `Search` returns for the spatial predicate alone, on a connection
without error. -/
theorem Search_between_eq (rows : List domain.Product) (tx0 : Option gorm.DB)
    (n e s w : domain.Point) :
    sqlite.DB.Search [sqlite.DB.Between [n, e, s, w]]
        { db := { items := rows, whereConditions := [], Error := none }, tx := tx0 } =
      ({ db := { items := rows, whereConditions := [], Error := none },
              tx := some { items := rows,
                           whereConditions := [gorm.Condition.latLng s.X n.X e.Y w.Y],
                           Error := none } },
            some (rows.filter (fun x => (gorm.Condition.latLng s.X n.X e.Y w.Y).holds x), none)) := by
  simp [sqlite.DB.Search, sqlite.DB.Search.loop, sqlite.DB.Between, gorm.DB.Where, gorm.DB.Find]

/-- What `Search` returns for the text predicate alone. -/
theorem Search_like_eq (rows : List domain.Product) (tx0 : Option gorm.DB) (t : String) :
    sqlite.DB.Search [sqlite.DB.Like t]
        { db := { items := rows, whereConditions := [], Error := none }, tx := tx0 } =
      ({ db := { items := rows, whereConditions := [], Error := none },
              tx := some { items := rows,
                           whereConditions := [gorm.Condition.itemNameLike ("%" ++ t ++ "%")],
                           Error := none } },
            some (rows.filter (fun x => (gorm.Condition.itemNameLike ("%" ++ t ++ "%")).holds x),
             none)) := by
  simp [sqlite.DB.Search, sqlite.DB.Search.loop, sqlite.DB.Like, gorm.DB.Where, gorm.DB.Find]

/-- What `Search` returns for the spatial predicate followed by the text
predicate. -/
theorem Search_between_like_eq (rows : List domain.Product) (tx0 : Option gorm.DB)
    (n e s w : domain.Point) (t : String) :
    sqlite.DB.Search [sqlite.DB.Between [n, e, s, w], sqlite.DB.Like t]
        { db := { items := rows, whereConditions := [], Error := none }, tx := tx0 } =
      ({ db := { items := rows, whereConditions := [], Error := none },
              tx := some { items := rows,
                           whereConditions := [gorm.Condition.latLng s.X n.X e.Y w.Y,
                             gorm.Condition.itemNameLike ("%" ++ t ++ "%")],
                           Error := none } },
            some (rows.filter (fun x => (gorm.Condition.latLng s.X n.X e.Y w.Y).holds x &&
                (gorm.Condition.itemNameLike ("%" ++ t ++ "%")).holds x), none)) := by
  simp [sqlite.DB.Search, sqlite.DB.Search.loop, sqlite.DB.Between, sqlite.DB.Like,
    gorm.DB.Where, gorm.DB.Find]

/-- What `Search` returns for the text predicate followed by the spatial
predicate. -/
theorem Search_like_between_eq (rows : List domain.Product) (tx0 : Option gorm.DB)
    (n e s w : domain.Point) (t : String) :
    sqlite.DB.Search [sqlite.DB.Like t, sqlite.DB.Between [n, e, s, w]]
        { db := { items := rows, whereConditions := [], Error := none }, tx := tx0 } =
      ({ db := { items := rows, whereConditions := [], Error := none },
              tx := some { items := rows,
                           whereConditions := [gorm.Condition.itemNameLike ("%" ++ t ++ "%"),
                             gorm.Condition.latLng s.X n.X e.Y w.Y],
                           Error := none } },
            some (rows.filter (fun x => (gorm.Condition.itemNameLike ("%" ++ t ++ "%")).holds x &&
                (gorm.Condition.latLng s.X n.X e.Y w.Y).holds x), none)) := by
  simp [sqlite.DB.Search, sqlite.DB.Search.loop, sqlite.DB.Between, sqlite.DB.Like,
    gorm.DB.Where, gorm.DB.Find]

/-- C3: for every list `p = [north, east, south, west]` of four corner points,
every table and every product `x`, a search with the spatial predicate
`Between p` succeeds and returns `x` exactly when `x` is a row of the table with
`p[2].X < x.Lat < p[0].X` and `p[3].Y < x.Lng < p[1].Y`: latitude strictly
between the south and north corners, longitude strictly between the west and
east corners. -/
theorem Between_keeps_exactly (rows : List domain.Product) (tx0 : Option gorm.DB)
    (north east south west : domain.Point) :
    ∃ d result,
      sqlite.DB.Search [sqlite.DB.Between [north, east, south, west]]
          { db := { items := rows, whereConditions := [], Error := none }, tx := tx0 } =
        (d, some (result, none)) ∧
      result = rows.filter (fun x => decide
        ((south.X < x.Lat ∧ x.Lat < north.X) ∧ (west.Y < x.Lng ∧ x.Lng < east.Y))) ∧
      ∀ x, x ∈ result ↔
        x ∈ rows ∧ (south.X < x.Lat ∧ x.Lat < north.X) ∧ (west.Y < x.Lng ∧ x.Lng < east.Y) := by
  have hf : ∀ x : domain.Product,
      (gorm.Condition.latLng south.X north.X east.Y west.Y).holds x =
        decide ((south.X < x.Lat ∧ x.Lat < north.X) ∧ (west.Y < x.Lng ∧ x.Lng < east.Y)) := by
    intro x
    rw [Bool.eq_iff_iff, latLng_holds_iff, decide_eq_true_iff]
    tauto
  refine ⟨_, _, Search_between_eq rows tx0 north east south west, ?_, ?_⟩
  · exact List.filter_congr (fun x _ => hf x)
  · intro x
    rw [List.mem_filter, latLng_holds_iff]
    tauto

/-- C7: on every table, for every four-corner list `p` and term `t`, the search
with `Between p` and `Like t` returns exactly the rows returned by both
single-predicate searches, as a sub-list of each; the two orders of the
predicates give the same list; and its length is at most the minimum of the
two single-predicate lengths. -/
theorem Search_between_like_intersection (rows : List domain.Product) (tx0 : Option gorm.DB)
    (north east south west : domain.Point) (t : String) :
    ∃ d1 d2 d3 d4 both spatial text swapped,
      sqlite.DB.Search [sqlite.DB.Between [north, east, south, west], sqlite.DB.Like t]
          { db := { items := rows, whereConditions := [], Error := none }, tx := tx0 } =
        (d1, some (both, none)) ∧
      sqlite.DB.Search [sqlite.DB.Between [north, east, south, west]]
          { db := { items := rows, whereConditions := [], Error := none }, tx := tx0 } =
        (d2, some (spatial, none)) ∧
      sqlite.DB.Search [sqlite.DB.Like t]
          { db := { items := rows, whereConditions := [], Error := none }, tx := tx0 } =
        (d3, some (text, none)) ∧
      sqlite.DB.Search [sqlite.DB.Like t, sqlite.DB.Between [north, east, south, west]]
          { db := { items := rows, whereConditions := [], Error := none }, tx := tx0 } =
        (d4, some (swapped, none)) ∧
      (∀ x, x ∈ both ↔ x ∈ spatial ∧ x ∈ text) ∧
      swapped = both ∧
      both.Sublist spatial ∧ both.Sublist text ∧
      both.length ≤ min spatial.length text.length := by
  have hswap : rows.filter (fun x =>
        (gorm.Condition.latLng south.X north.X east.Y west.Y).holds x &&
          (gorm.Condition.itemNameLike ("%" ++ t ++ "%")).holds x) =
      rows.filter (fun x => (gorm.Condition.itemNameLike ("%" ++ t ++ "%")).holds x &&
          (gorm.Condition.latLng south.X north.X east.Y west.Y).holds x) :=
    List.filter_congr (fun x _ => Bool.and_comm _ _)
  have hspatial : (rows.filter (fun x =>
        (gorm.Condition.latLng south.X north.X east.Y west.Y).holds x &&
          (gorm.Condition.itemNameLike ("%" ++ t ++ "%")).holds x)).Sublist
      (rows.filter (fun x => (gorm.Condition.latLng south.X north.X east.Y west.Y).holds x)) := by
    rw [hswap, ← List.filter_filter]
    exact List.filter_sublist _
  have htext : (rows.filter (fun x =>
        (gorm.Condition.latLng south.X north.X east.Y west.Y).holds x &&
          (gorm.Condition.itemNameLike ("%" ++ t ++ "%")).holds x)).Sublist
      (rows.filter (fun x => (gorm.Condition.itemNameLike ("%" ++ t ++ "%")).holds x)) := by
    rw [← List.filter_filter]
    exact List.filter_sublist _
  refine ⟨_, _, _, _, _, _, _, _, Search_between_like_eq rows tx0 north east south west t,
    Search_between_eq rows tx0 north east south west, Search_like_eq rows tx0 t,
    Search_like_between_eq rows tx0 north east south west t, ?_, hswap.symm, hspatial, htext,
    le_min hspatial.length_le htext.length_le⟩
  intro x
  simp only [List.mem_filter, Bool.and_eq_true]
  tauto

/-! ### `service.Service.Search` -/

/-- The calls `Service.Search` makes on its collaborator, read off the log of
the traced collaborator: `Between` on the bounding box, then `Like` on the term
when the term is not empty, then one `Search` with the closures obtained, in
that order. -/
theorem Service_Search_calls {σ F : Type} (r : repository.Product σ F) (q : domain.Query)
    (st : σ) :
    (service.Service.Search { products := r.traced } q (st, [])).1.2 =
      if q.Term = "" then
        [repository.Call.Between (geo.BoundingBox q.Lat q.Lng q.Radius),
         repository.Call.Search [(r.Between (geo.BoundingBox q.Lat q.Lng q.Radius) st).1]]
      else
        [repository.Call.Between (geo.BoundingBox q.Lat q.Lng q.Radius),
         repository.Call.Like q.Term,
         repository.Call.Search
           [(r.Between (geo.BoundingBox q.Lat q.Lng q.Radius) st).1,
            (r.Like q.Term (r.Between (geo.BoundingBox q.Lat q.Lng q.Radius) st).2).1]] := by
  by_cases hterm : q.Term = ""
  · simp only [service.Service.Search, repository.Product.traced, hterm, ne_eq,
      not_true_eq_false, if_false, if_true, List.nil_append]
    rcases hs : r.Search [(r.Between (geo.BoundingBox q.Lat q.Lng q.Radius) st).1]
        (r.Between (geo.BoundingBox q.Lat q.Lng q.Radius) st).2 with ⟨st1, _ | ⟨rows, _ | e⟩⟩
    · simp [hs]
    · simp [hs]
    · by_cases he : errors.Is e repository.ErrNotFound <;> simp [hs, he]
  · simp only [service.Service.Search, repository.Product.traced, hterm, ne_eq,
      not_false_eq_true, if_false, if_true, List.nil_append]
    rcases hs : r.Search
        [(r.Between (geo.BoundingBox q.Lat q.Lng q.Radius) st).1,
         (r.Like q.Term (r.Between (geo.BoundingBox q.Lat q.Lng q.Radius) st).2).1]
        (r.Like q.Term (r.Between (geo.BoundingBox q.Lat q.Lng q.Radius) st).2).2
      with ⟨st1, _ | ⟨rows, _ | e⟩⟩
    · simp [hs]
    · simp [hs]
    · by_cases he : errors.Is e repository.ErrNotFound <;> simp [hs, he]

/-- C4: for every collaborator `r`, every query `q` and every state, the calls
`Service.Search` makes are, in order: `Between (BoundingBox q.Lat q.Lng q.Radius)`,
then `Like q.Term` only when `q.Term` is not empty, then `Search` with the list
`[between]` for an empty term and `[between, like]` (spatial predicate first)
otherwise.  `Search` is called exactly once, and `Like` is never called for an
empty term. -/
theorem Service_Search_predicate_list {σ F : Type} (r : repository.Product σ F)
    (q : domain.Query) (st : σ) :
    (service.Service.Search { products := r.traced } q (st, [])).1.2 =
        (if q.Term = "" then
          [repository.Call.Between (geo.BoundingBox q.Lat q.Lng q.Radius),
           repository.Call.Search [(r.Between (geo.BoundingBox q.Lat q.Lng q.Radius) st).1]]
        else
          [repository.Call.Between (geo.BoundingBox q.Lat q.Lng q.Radius),
           repository.Call.Like q.Term,
           repository.Call.Search
             [(r.Between (geo.BoundingBox q.Lat q.Lng q.Radius) st).1,
              (r.Like q.Term (r.Between (geo.BoundingBox q.Lat q.Lng q.Radius) st).2).1]]) ∧
      ((service.Service.Search { products := r.traced } q (st, [])).1.2.filter
          repository.Call.isSearch).length = 1 ∧
      ((service.Service.Search { products := r.traced } q (st, [])).1.2.filter
          repository.Call.isLike).length = if q.Term = "" then 0 else 1 := by
  have h := Service_Search_calls r q st
  refine ⟨h, ?_, ?_⟩
  · rw [h]
    split_ifs <;> simp [repository.Call.isSearch]
  · rw [h]
    split_ifs <;> simp [repository.Call.isLike]

/-- The two errors `Service.Search` can return wrap exactly one of the service
sentinels each, and neither wraps `ErrInputInvalid`. -/
theorem service_error_kinds :
    errors.Is (Error.Errorf "failed to search products: %w" service.ErrRequestFailed)
        service.ErrRequestFailed = true ∧
      errors.Is (Error.Errorf "failed to search products: %w" service.ErrRequestFailed)
        service.ErrNotFound = false ∧
      errors.Is (Error.Errorf "failed to search products: %w" service.ErrRequestFailed)
        service.ErrInputInvalid = false ∧
      errors.Is (Error.Errorf "product not found: %w" service.ErrNotFound)
        service.ErrNotFound = true ∧
      errors.Is (Error.Errorf "product not found: %w" service.ErrNotFound)
        service.ErrRequestFailed = false ∧
      errors.Is (Error.Errorf "product not found: %w" service.ErrNotFound)
        service.ErrInputInvalid = false := by
  simp [errors.Is, service.ErrRequestFailed, service.ErrNotFound, service.ErrInputInvalid]

/-- C5: for every collaborator and query, the result of `Service.Search` is
determined by the outcome of the one storage `Search`: rows without error are
returned as they are, in the same order, without error; an error that is or
wraps `repository.ErrNotFound` gives no rows and an error that wraps
`service.ErrNotFound` and not `service.ErrRequestFailed`; any other error gives
no rows and an error that wraps `service.ErrRequestFailed` and not
`service.ErrNotFound`. -/
theorem Service_Search_outcome {σ F : Type} (r : repository.Product σ F) (q : domain.Query)
    (st : σ) :
    match r.Search
        (if q.Term = "" then
          [(r.Between (geo.BoundingBox q.Lat q.Lng q.Radius) st).1]
        else
          [(r.Between (geo.BoundingBox q.Lat q.Lng q.Radius) st).1,
           (r.Like q.Term (r.Between (geo.BoundingBox q.Lat q.Lng q.Radius) st).2).1])
        (if q.Term = "" then
          (r.Between (geo.BoundingBox q.Lat q.Lng q.Radius) st).2
        else
          (r.Like q.Term (r.Between (geo.BoundingBox q.Lat q.Lng q.Radius) st).2).2) with
    | (st1, none) => service.Service.Search { products := r } q st = (st1, none)
    | (st1, some (rows, none)) =>
        service.Service.Search { products := r } q st = (st1, some (rows, none))
    | (st1, some (_, some e)) =>
        ∃ e1, service.Service.Search { products := r } q st = (st1, some ([], some e1)) ∧
          if errors.Is e repository.ErrNotFound = true then
            errors.Is e1 service.ErrNotFound = true ∧
              errors.Is e1 service.ErrRequestFailed = false
          else
            errors.Is e1 service.ErrRequestFailed = true ∧
              errors.Is e1 service.ErrNotFound = false := by
  obtain ⟨k1, k2, -, k4, k5, -⟩ := service_error_kinds
  by_cases hterm : q.Term = ""
  · simp only [service.Service.Search, hterm, ne_eq, not_true_eq_false, if_false, if_true,
      List.nil_append]
    rcases hs : r.Search [(r.Between (geo.BoundingBox q.Lat q.Lng q.Radius) st).1]
        (r.Between (geo.BoundingBox q.Lat q.Lng q.Radius) st).2 with ⟨st1, _ | ⟨rows, _ | e⟩⟩
    · simp [hs]
    · simp [hs]
    · by_cases he : errors.Is e repository.ErrNotFound = true
      · simp [hs, he, k4, k5]
      · simp [hs, he, k1, k2]
  · simp only [service.Service.Search, hterm, ne_eq, not_false_eq_true, if_false, if_true,
      List.nil_append]
    rcases hs : r.Search
        [(r.Between (geo.BoundingBox q.Lat q.Lng q.Radius) st).1,
         (r.Like q.Term (r.Between (geo.BoundingBox q.Lat q.Lng q.Radius) st).2).1]
        (r.Like q.Term (r.Between (geo.BoundingBox q.Lat q.Lng q.Radius) st).2).2
      with ⟨st1, _ | ⟨rows, _ | e⟩⟩
    · simp [hs]
    · simp [hs]
    · by_cases he : errors.Is e repository.ErrNotFound = true
      · simp [hs, he, k4, k5]
      · simp [hs, he, k1, k2]

/-- C6 (counterexample): the query with radius -1 (and an empty term) is not
rejected.  Run on the SQLite repository over an empty table, `Service.Search`
calls `Between` with the bounding box of radius -1, calls the storage `Search`
once, and returns the (empty) result without any error. -/
theorem Service_Search_accepts_negative_radius :
    (-1 : ℝ) ≤ 0 ∧
      ∃ d, service.Service.Search { products := sqlite.DB.Product.traced }
          { Term := "", Lat := 0, Lng := 0, Radius := -1 }
          (sqlite.New { items := [], whereConditions := [], Error := none }, []) =
        ((d, [repository.Call.Between (geo.BoundingBox 0 0 (-1)),
              repository.Call.Search [sqlite.DB.Between (geo.BoundingBox 0 0 (-1))]]),
          some ([], none)) := by
  refine ⟨by norm_num, ?_⟩
  refine ⟨{ db := { items := [], whereConditions := [], Error := none },
            tx := some { items := [],
                         whereConditions :=
                           [gorm.Condition.latLng (geo.Destination 0 0 (-1) 180).X
                             (geo.Destination 0 0 (-1) 0).X (geo.Destination 0 0 (-1) 90).Y
                             (geo.Destination 0 0 (-1) 270).Y],
                         Error := none } }, ?_⟩
  simp [service.Service.Search, repository.Product.traced, sqlite.DB.Product, sqlite.New,
    sqlite.DB.Search, sqlite.DB.Search.loop, sqlite.DB.Between, geo.BoundingBox,
    gorm.DB.Where, gorm.DB.Find]

/-- C6 (amended): a query whose radius is `≤ 0` is treated like any other
query.  `Service.Search` validates nothing: it computes
`BoundingBox q.Lat q.Lng q.Radius`, makes the same calls on its collaborator
(`Between`, `Like` for a non-empty term, one `Search`), and no error it returns
wraps `service.ErrInputInvalid`. -/
theorem Service_Search_no_radius_check {σ F : Type} (r : repository.Product σ F)
    (q : domain.Query) (st : σ) (_hr : q.Radius ≤ 0) :
    (service.Service.Search { products := r.traced } q (st, [])).1.2 =
        (if q.Term = "" then
          [repository.Call.Between (geo.BoundingBox q.Lat q.Lng q.Radius),
           repository.Call.Search [(r.Between (geo.BoundingBox q.Lat q.Lng q.Radius) st).1]]
        else
          [repository.Call.Between (geo.BoundingBox q.Lat q.Lng q.Radius),
           repository.Call.Like q.Term,
           repository.Call.Search
             [(r.Between (geo.BoundingBox q.Lat q.Lng q.Radius) st).1,
              (r.Like q.Term (r.Between (geo.BoundingBox q.Lat q.Lng q.Radius) st).2).1]]) ∧
      ∀ rows e, (service.Service.Search { products := r } q st).2 = some (rows, some e) →
        errors.Is e service.ErrInputInvalid = false := by
  obtain ⟨-, -, k3, -, -, k6⟩ := service_error_kinds
  refine ⟨Service_Search_calls r q st, ?_⟩
  intro rows e
  simp only [service.Service.Search]
  rcases r.Search _ _ with ⟨st1, _ | ⟨rows1, _ | e1⟩⟩
  · simp
  · simp
  · by_cases he : errors.Is e1 repository.ErrNotFound = true
    · simp only [he, Bool.not_true, Bool.false_eq_true, if_false, Option.some.injEq,
        Prod.mk.injEq, and_imp]
      intro _ h
      rw [← h]
      exact k6
    · simp only [he, Bool.not_eq_true] at *
      simp only [he, Bool.not_false, if_true, Option.some.injEq, Prod.mk.injEq, and_imp]
      intro _ h
      rw [← h]
      exact k3

/-- C6 (amended), at a concrete input: the SQLite repository over an empty
table and the query with radius -1. -/
theorem Service_Search_no_radius_check_witness :
    (service.Service.Search { products := sqlite.DB.Product.traced }
          { Term := "", Lat := 0, Lng := 0, Radius := -1 }
          (sqlite.New { items := [], whereConditions := [], Error := none }, [])).1.2 =
        [repository.Call.Between (geo.BoundingBox 0 0 (-1)),
         repository.Call.Search [sqlite.DB.Between (geo.BoundingBox 0 0 (-1))]] ∧
      ∀ rows e, (service.Service.Search { products := sqlite.DB.Product }
          { Term := "", Lat := 0, Lng := 0, Radius := -1 }
          (sqlite.New { items := [], whereConditions := [], Error := none })).2 =
            some (rows, some e) →
        errors.Is e service.ErrInputInvalid = false :=
  Service_Search_no_radius_check sqlite.DB.Product
    { Term := "", Lat := 0, Lng := 0, Radius := -1 }
    (sqlite.New { items := [], whereConditions := [], Error := none })
    (show (-1 : ℝ) ≤ 0 by norm_num)

/-! ### Due north, and the wrap-around step away from the antimeridian -/

/-- The wrap-around step `Mod (l + 3π) 2π - π` leaves every angle in `[-π, π)`
unchanged. -/
theorem wrap_longitude_id (l : ℝ) (h1 : -Real.pi ≤ l) (h2 : l < Real.pi) :
    math.Mod (l + 3 * Real.pi) (2 * Real.pi) - Real.pi = l := by
  have hpi : 0 < Real.pi := Real.pi_pos
  rw [math_Mod_eq_sub _ _ 1 (by linarith) (by push_cast; linarith) (by push_cast; linarith)]
  push_cast
  ring

/-- Due north (bearing 0), as long as the pole is not passed, the latitude grows
by the angular distance. -/
theorem Destination_north_X (lat lng d : ℝ) (hlat : -90 ≤ lat) (hd : 0 ≤ d)
    (hN : lat + d / 6371000 * (180 / Real.pi) ≤ 90) :
    (geo.Destination lat lng d 0).X = lat + d / 6371000 * (180 / Real.pi) := by
  have hpi : 0 < Real.pi := Real.pi_pos
  have hne : Real.pi ≠ 0 := hpi.ne.symm
  have hδ : 0 ≤ d / 6371000 := by positivity
  have h1 : -(Real.pi / 2) ≤ lat * (Real.pi / 180) + d / 6371000 := by
    nlinarith [hlat]
  have h2 : lat * (Real.pi / 180) + d / 6371000 ≤ Real.pi / 2 := by
    have h := mul_le_mul_of_nonneg_right hN (by positivity : (0 : ℝ) ≤ Real.pi / 180)
    have e : (lat + d / 6371000 * (180 / Real.pi)) * (Real.pi / 180) =
        lat * (Real.pi / 180) + d / 6371000 := by
      field_simp
      ring
    rw [e] at h
    linarith
  rw [Destination_X_eq, Real.cos_zero, mul_one, ← Real.sin_add, Real.arcsin_sin h1 h2]
  field_simp
  ring

/-- Due north, as long as the pole is not passed, the longitude is unchanged,
for a start longitude in `[-180, 180)`. -/
theorem Destination_north_Y (lat lng d : ℝ) (hlat : -90 ≤ lat ∧ lat ≤ 90) (hd : 0 ≤ d)
    (hlng : -180 ≤ lng ∧ lng < 180)
    (hN : lat + d / 6371000 * (180 / Real.pi) ≤ 90) :
    (geo.Destination lat lng d 0).Y = lng := by
  have hpi : 0 < Real.pi := Real.pi_pos
  have hne : Real.pi ≠ 0 := hpi.ne.symm
  have hδ : 0 ≤ d / 6371000 := by positivity
  have hφ1 : -(Real.pi / 2) ≤ lat * (Real.pi / 180) := by nlinarith [hlat.1]
  have hφ2 : lat * (Real.pi / 180) ≤ Real.pi / 2 := by nlinarith [hlat.2]
  have h1 : -(Real.pi / 2) ≤ lat * (Real.pi / 180) + d / 6371000 := by linarith
  have h2 : lat * (Real.pi / 180) + d / 6371000 ≤ Real.pi / 2 := by
    have h := mul_le_mul_of_nonneg_right hN (by positivity : (0 : ℝ) ≤ Real.pi / 180)
    have e : (lat + d / 6371000 * (180 / Real.pi)) * (Real.pi / 180) =
        lat * (Real.pi / 180) + d / 6371000 := by
      field_simp
      ring
    rw [e] at h
    linarith
  have hX : (geo.Destination lat lng d 0).X * (Real.pi / 180) =
      lat * (Real.pi / 180) + d / 6371000 := by
    rw [Destination_north_X lat lng d hlat.1 hd hN]
    field_simp
    ring
  have hx : 0 ≤ Real.cos (d / 6371000) -
      Real.sin (lat * (Real.pi / 180)) * Real.sin (lat * (Real.pi / 180) + d / 6371000) := by
    have hc1 := Real.cos_nonneg_of_neg_pi_div_two_le_of_le hφ1 hφ2
    have hc2 := Real.cos_nonneg_of_neg_pi_div_two_le_of_le h1 h2
    have e : Real.cos (d / 6371000) =
        Real.cos (lat * (Real.pi / 180) + d / 6371000) * Real.cos (lat * (Real.pi / 180)) +
          Real.sin (lat * (Real.pi / 180) + d / 6371000) * Real.sin (lat * (Real.pi / 180)) := by
      rw [← Real.cos_sub]
      congr 1
      ring
    rw [e]
    nlinarith [mul_nonneg hc1 hc2]
  have hl1 : -Real.pi ≤ lng * (Real.pi / 180) := by nlinarith [hlng.1]
  have hl2 : lng * (Real.pi / 180) < Real.pi := by nlinarith [hlng.2]
  rw [Destination_Y_eq, hX]
  simp only [zero_mul, Real.sin_zero]
  rw [math_Atan2_zero_left _ hx, add_zero, wrap_longitude_id _ hl1 hl2]
  field_simp

/-- In exact arithmetic, for a start latitude in `[-90, 90)`, a start longitude
in `(-180, 180)` and a distance `d > 0` with `lat + (d/6371000)·180/π ≤ 90`, the
destination due north has latitude `lat + (d/6371000)·180/π`, strictly greater
than `lat`, and longitude `lng`.  (In float64 these equalities hold only up to
rounding.) -/
theorem Destination_due_north (lat lng d : ℝ) (hlat : -90 ≤ lat ∧ lat < 90)
    (hlng : -180 < lng ∧ lng < 180) (hd : 0 < d)
    (hN : lat + d / 6371000 * (180 / Real.pi) ≤ 90) :
    lat < (geo.Destination lat lng d 0).X ∧
      (geo.Destination lat lng d 0).X = lat + d / 6371000 * (180 / Real.pi) ∧
      (geo.Destination lat lng d 0).Y = lng := by
  have hpi : 0 < Real.pi := Real.pi_pos
  have hX := Destination_north_X lat lng d hlat.1 hd.le hN
  have hpos : 0 < d / 6371000 * (180 / Real.pi) := by positivity
  refine ⟨by rw [hX]; linarith, hX, ?_⟩
  exact Destination_north_Y lat lng d ⟨hlat.1, hlat.2.le⟩ hd.le ⟨hlng.1.le, hlng.2⟩ hN

/-! ### Due south -/

/-- The cosine of 180 (radians) is not -1: 180 is not an odd multiple of `π`,
because `π` is irrational. -/
theorem cos_180_ne_neg_one : Real.cos 180 ≠ -1 := by
  intro h
  obtain ⟨k, hk⟩ := Real.cos_eq_neg_one_iff.mp h
  have hodd : (2 * (k : ℝ) + 1) ≠ 0 := by
    have hz : (2 * k + 1 : ℤ) ≠ 0 := by omega
    exact_mod_cast hz
  have hpi : Real.pi = ((180 / (2 * (k : ℚ) + 1) : ℚ) : ℝ) := by
    push_cast
    field_simp
    linarith
  exact irrational_pi ⟨_, hpi.symm⟩

/-- C12 (the code at the failing input): the south corner of
`BoundingBox 0 0 50000` is `Destination 0 0 50000 180`, whose latitude is
`asin (sin δ * cos 180)` in degrees, with `δ = 50000/6371000` and the cosine
taken of the bearing in degrees.  It is not `0 - δ·180/π`, the latitude of the
southern extreme of the circle. -/
theorem BoundingBox_south_corner_takes_cos_of_degrees :
    (geo.BoundingBox 0 0 50000)[2]? = some (geo.Destination 0 0 50000 180) ∧
      (geo.Destination 0 0 50000 180).X =
        Real.arcsin (Real.sin (50000 / 6371000) * Real.cos 180) * (180 / Real.pi) ∧
      (geo.Destination 0 0 50000 180).X ≠ 0 - 50000 / 6371000 * (180 / Real.pi) := by
  have hpi : 0 < Real.pi := Real.pi_pos
  have hne : Real.pi ≠ 0 := hpi.ne.symm
  have hX : (geo.Destination 0 0 50000 180).X =
      Real.arcsin (Real.sin (50000 / 6371000) * Real.cos 180) * (180 / Real.pi) := by
    rw [Destination_X_eq]
    simp only [zero_mul, Real.sin_zero, Real.cos_zero, one_mul, zero_add]
  refine ⟨rfl, hX, ?_⟩
  rw [hX]
  intro h
  have hk : (180 : ℝ) / Real.pi ≠ 0 := by positivity
  have harc : Real.arcsin (Real.sin (50000 / 6371000) * Real.cos 180) =
      -(50000 / 6371000) := by
    have h2 : Real.arcsin (Real.sin (50000 / 6371000) * Real.cos 180) * (180 / Real.pi) =
        -(50000 / 6371000) * (180 / Real.pi) := by
      rw [h]
      ring
    exact mul_right_cancel₀ hk h2
  have hA1 : -1 ≤ Real.sin (50000 / 6371000) * Real.cos 180 := by
    nlinarith [Real.neg_one_le_sin (50000 / 6371000), Real.sin_le_one (50000 / 6371000),
      Real.neg_one_le_cos 180, Real.cos_le_one 180]
  have hA2 : Real.sin (50000 / 6371000) * Real.cos 180 ≤ 1 := by
    nlinarith [Real.neg_one_le_sin (50000 / 6371000), Real.sin_le_one (50000 / 6371000),
      Real.neg_one_le_cos 180, Real.cos_le_one 180]
  have hsin := congrArg Real.sin harc
  rw [Real.sin_arcsin hA1 hA2, Real.sin_neg] at hsin
  have hpos : 0 < Real.sin (50000 / 6371000) :=
    Real.sin_pos_of_pos_of_lt_pi (by norm_num) (by linarith [Real.pi_gt_three])
  have hcos : Real.cos 180 = -1 := by
    have h3 : Real.sin (50000 / 6371000) * (Real.cos 180 + 1) = 0 := by linarith
    rcases mul_eq_zero.mp h3 with h4 | h4
    · exact absurd h4 hpos.ne.symm
    · linarith
  exact cos_180_ne_neg_one hcos

/-! ### The centre of a search and its own bounding box -/

/-- The cosine of 180 (radians) is at most `-1/2`: `180 = t + 57π` with
`t` between 0.92 and 0.93. -/
theorem cos_180_le : Real.cos 180 ≤ -(1 / 2) := by
  have h1 : (3.141592 : ℝ) < Real.pi := Real.pi_gt_d6
  have h2 : Real.pi < (3.141593 : ℝ) := Real.pi_lt_d6
  have e : (180 : ℝ) = (180 - 57 * Real.pi) + (57 : ℕ) * Real.pi := by
    push_cast
    ring
  have hc : Real.cos 180 = -Real.cos (180 - 57 * Real.pi) := by
    conv_lhs => rw [e]
    rw [Real.cos_add_nat_mul_pi]
    norm_num
  have ht1 : 0 ≤ 180 - 57 * Real.pi := by norm_num at h2 ⊢; linarith
  have ht2 : 180 - 57 * Real.pi ≤ 0.93 := by norm_num at h1 ⊢; linarith
  have hb := Real.one_sub_sq_div_two_le_cos (x := 180 - 57 * Real.pi)
  have hsq : (180 - 57 * Real.pi) ^ 2 ≤ 0.93 ^ 2 := by
    exact pow_le_pow_left₀ ht1 ht2 2
  rw [hc]
  norm_num at hsq ⊢
  linarith

/-- The argument of the arcsine in `Destination` lies in `[-1, 1]`, whatever
cosine `c` in `[-1, 1]` is used for the bearing. -/
theorem asin_argument_bounds (φ δ c : ℝ) (hc : -1 ≤ c ∧ c ≤ 1) :
    -1 ≤ Real.sin φ * Real.cos δ + Real.cos φ * Real.sin δ * c ∧
      Real.sin φ * Real.cos δ + Real.cos φ * Real.sin δ * c ≤ 1 := by
  have h1 := Real.sin_sq_add_cos_sq φ
  have h2 := Real.sin_sq_add_cos_sq δ
  have hc2 : c ^ 2 ≤ 1 := by nlinarith [hc.1, hc.2]
  have hsq : (Real.sin φ * Real.cos δ + Real.cos φ * Real.sin δ * c) ^ 2 ≤ 1 := by
    have hcs : (Real.sin φ * Real.cos δ + Real.cos φ * Real.sin δ * c) ^ 2 ≤
        (Real.sin φ ^ 2 + (Real.cos φ * c) ^ 2) * (Real.cos δ ^ 2 + Real.sin δ ^ 2) := by
      nlinarith [sq_nonneg (Real.sin φ * Real.sin δ - Real.cos φ * c * Real.cos δ)]
    have hle : Real.sin φ ^ 2 + (Real.cos φ * c) ^ 2 ≤ 1 := by
      nlinarith [mul_nonneg (sq_nonneg (Real.cos φ)) (sub_nonneg.mpr hc2)]
    have hone : Real.cos δ ^ 2 + Real.sin δ ^ 2 = 1 := by linarith
    rw [hone, mul_one] at hcs
    linarith
  exact abs_le.mp ((sq_le_one_iff_abs_le_one _).mp hsq)

/-- Above the horizontal axis `math.Atan2` is positive. -/
theorem math_Atan2_pos (y x : ℝ) (hy : 0 < y) : 0 < math.Atan2 y x := by
  unfold math.Atan2
  have h0 : 0 ≤ Complex.arg ⟨x, y⟩ := Complex.arg_nonneg_iff.mpr hy.le
  have hne : Complex.arg ⟨x, y⟩ ≠ 0 := by
    intro h
    have := (Complex.arg_eq_zero_iff.mp h).2
    exact hy.ne.symm this
  exact lt_of_le_of_ne h0 (Ne.symm hne)

/-- Below the horizontal axis `math.Atan2` is negative. -/
theorem math_Atan2_neg (y x : ℝ) (hy : y < 0) : math.Atan2 y x < 0 := by
  unfold math.Atan2
  exact Complex.arg_neg_iff.mpr hy

/-- In the right half plane the angle is at most the slope: `|Atan2 y x| ≤ |y| / x`. -/
theorem math_Atan2_abs_le (y x : ℝ) (hx : 0 < x) : |math.Atan2 y x| ≤ |y| / x := by
  unfold math.Atan2
  have habs : |Complex.arg ⟨x, y⟩| < Real.pi / 2 :=
    Complex.abs_arg_lt_pi_div_two_iff.mpr (Or.inl hx)
  have htan : Real.tan (Complex.arg ⟨x, y⟩) = y / x := Complex.tan_arg _
  obtain ⟨hlo, hhi⟩ := abs_lt.mp habs
  have hyx : y / x ≤ |y| / x := div_le_div_of_nonneg_right (le_abs_self y) hx.le
  have hyx2 : -(y / x) ≤ |y| / x := by
    rw [← neg_div]
    exact div_le_div_of_nonneg_right (neg_le_abs y) hx.le
  rcases lt_trichotomy (Complex.arg ⟨x, y⟩) 0 with h | h | h
  · rw [abs_of_neg h]
    have h1 := Real.lt_tan (x := -Complex.arg ⟨x, y⟩) (by linarith) (by linarith)
    rw [Real.tan_neg, htan] at h1
    linarith
  · rw [h, abs_zero]
    positivity
  · rw [abs_of_pos h]
    have h1 := Real.lt_tan h hhi
    rw [htan] at h1
    linarith

/-- Numeric facts for a centre with `|lat| ≤ 80` and a radius in `(0, 100000]`:
the angular distance `δ` is at most `100/6371`, its sine is between `δ/2` and
`δ`, its cosine is at least `0.99`, and the cosine of the latitude is at least
`0.17`. -/
theorem centre_numeric_facts (lat r : ℝ) (hlat : |lat| ≤ 80) (hr : 0 < r ∧ r ≤ 100000) :
    (0 < r / 6371000 ∧ r / 6371000 ≤ 100 / 6371) ∧
      (r / 6371000 / 2 ≤ Real.sin (r / 6371000) ∧ Real.sin (r / 6371000) ≤ r / 6371000) ∧
      99 / 100 ≤ Real.cos (r / 6371000) ∧
      17 / 100 ≤ Real.cos (lat * (Real.pi / 180)) := by
  have hpi : 0 < Real.pi := Real.pi_pos
  have hp1 : (3.14 : ℝ) < Real.pi := Real.pi_gt_d2
  have hp2 : Real.pi < (3.15 : ℝ) := Real.pi_lt_d2
  have hδ0 : 0 < r / 6371000 := div_pos hr.1 (by norm_num)
  have hδ1 : r / 6371000 ≤ 100 / 6371 := by
    have h := div_le_div_of_nonneg_right hr.2 (by norm_num : (0 : ℝ) ≤ 6371000)
    have e : (100000 : ℝ) / 6371000 = 100 / 6371 := by norm_num
    linarith
  have hδ2 : r / 6371000 ≤ 1 := by linarith [show (100 : ℝ) / 6371 ≤ 1 by norm_num]
  have hsin1 : Real.sin (r / 6371000) ≤ r / 6371000 := Real.sin_le hδ0.le
  have hsin2 : r / 6371000 / 2 ≤ Real.sin (r / 6371000) := by
    have h := Real.sin_gt_sub_cube hδ0 hδ2
    have hsq : (r / 6371000) ^ 2 ≤ 1 := by nlinarith
    have hcube : (r / 6371000) ^ 3 ≤ r / 6371000 := by nlinarith
    linarith
  have hcos : 99 / 100 ≤ Real.cos (r / 6371000) := by
    have h := Real.one_sub_sq_div_two_le_cos (x := r / 6371000)
    have hsq : (r / 6371000) ^ 2 ≤ (100 / 6371) ^ 2 := pow_le_pow_left₀ hδ0.le hδ1 2
    norm_num at hsq
    linarith
  have hφ : 17 / 100 ≤ Real.cos (lat * (Real.pi / 180)) := by
    have habs : |lat * (Real.pi / 180)| ≤ 4 * Real.pi / 9 := by
      rw [abs_mul, abs_of_pos (by positivity : (0 : ℝ) < Real.pi / 180)]
      nlinarith [abs_nonneg lat]
    have h1 : Real.cos (4 * Real.pi / 9) ≤ Real.cos |lat * (Real.pi / 180)| :=
      Real.cos_le_cos_of_nonneg_of_le_pi (abs_nonneg _) (by linarith) habs
    rw [Real.cos_abs] at h1
    have h2 : Real.cos (4 * Real.pi / 9) = Real.sin (Real.pi / 18) := by
      rw [← Real.sin_pi_div_two_sub]
      congr 1
      ring
    have h3 := Real.sin_gt_sub_cube (x := Real.pi / 18) (by positivity) (by linarith)
    have hq1 : (0.1744 : ℝ) ≤ Real.pi / 18 := by norm_num at hp1 ⊢; linarith
    have hq2 : Real.pi / 18 ≤ (0.175 : ℝ) := by norm_num at hp2 ⊢; linarith
    have hq3 : (Real.pi / 18) ^ 3 ≤ (0.175 : ℝ) ^ 3 :=
      pow_le_pow_left₀ (by positivity) hq2 3
    norm_num at hq1 hq3
    linarith
  exact ⟨⟨hδ0, hδ1⟩, ⟨hsin2, hsin1⟩, hcos, hφ⟩

/-- The offset in longitude of an east or west corner: for a bearing whose
sine `s` is 1 or -1, the angle returned by `math.Atan2` in `Destination` is at
most `1/6` in absolute value, positive for `s = 1` and negative for `s = -1`,
whatever cosine `c` is used for the bearing in the latitude. -/
theorem side_angle_facts (φ δ c s : ℝ) (hcosφ : 17 / 100 ≤ Real.cos φ)
    (hsinδ : 0 < Real.sin δ ∧ Real.sin δ ≤ 100 / 6371) (hcosδ : 99 / 100 ≤ Real.cos δ)
    (hc : -1 ≤ c ∧ c ≤ 1) (hs : s = 1 ∨ s = -1) :
    |math.Atan2 (s * Real.sin δ * Real.cos φ)
        (Real.cos δ - Real.sin φ *
          Real.sin (Real.arcsin (Real.sin φ * Real.cos δ + Real.cos φ * Real.sin δ * c)))| ≤
        1 / 6 ∧
      (s = 1 → 0 < math.Atan2 (s * Real.sin δ * Real.cos φ)
        (Real.cos δ - Real.sin φ *
          Real.sin (Real.arcsin (Real.sin φ * Real.cos δ + Real.cos φ * Real.sin δ * c)))) ∧
      (s = -1 → math.Atan2 (s * Real.sin δ * Real.cos φ)
        (Real.cos δ - Real.sin φ *
          Real.sin (Real.arcsin (Real.sin φ * Real.cos δ + Real.cos φ * Real.sin δ * c))) <
        0) := by
  obtain ⟨hA1, hA2⟩ := asin_argument_bounds φ δ c hc
  rw [Real.sin_arcsin hA1 hA2]
  have hφ0 : 0 < Real.cos φ := by linarith
  have hsc : Real.sin φ * c ≤ 1 := by
    nlinarith [Real.neg_one_le_sin φ, Real.sin_le_one φ, hc.1, hc.2]
  have hu : 15 / 100 ≤ Real.cos φ * Real.cos δ - Real.sin φ * Real.sin δ * c := by
    have h1 : 17 / 100 * (99 / 100) ≤ Real.cos φ * Real.cos δ :=
      mul_le_mul hcosφ hcosδ (by norm_num) hφ0.le
    have h2 : Real.sin φ * Real.sin δ * c ≤ Real.sin δ := by
      have := mul_le_mul_of_nonneg_right hsc hsinδ.1.le
      nlinarith
    have h3 : (100 : ℝ) / 6371 ≤ 16 / 1000 := by norm_num
    norm_num at h1 ⊢
    linarith [hsinδ.2]
  have hx : Real.cos δ - Real.sin φ *
      (Real.sin φ * Real.cos δ + Real.cos φ * Real.sin δ * c) =
      Real.cos φ * (Real.cos φ * Real.cos δ - Real.sin φ * Real.sin δ * c) := by
    have h := Real.sin_sq_add_cos_sq φ
    linear_combination (-(Real.cos δ)) * h
  rw [hx]
  have hxpos : 0 < Real.cos φ * (Real.cos φ * Real.cos δ - Real.sin φ * Real.sin δ * c) :=
    mul_pos hφ0 (by linarith)
  have hy : 0 < Real.sin δ * Real.cos φ := mul_pos hsinδ.1 hφ0
  refine ⟨?_, ?_, ?_⟩
  · refine le_trans (math_Atan2_abs_le _ _ hxpos) ?_
    have habs : |s * Real.sin δ * Real.cos φ| = Real.sin δ * Real.cos φ := by
      rcases hs with h | h
      · rw [h, one_mul, abs_of_pos hy]
      · rw [h, neg_one_mul, neg_mul, abs_neg, abs_of_pos hy]
    rw [habs, div_le_iff₀ hxpos]
    have h3 : (100 : ℝ) / 6371 ≤ 16 / 1000 := by norm_num
    have h4 : Real.sin δ ≤
        1 / 6 * (Real.cos φ * Real.cos δ - Real.sin φ * Real.sin δ * c) := by
      linarith [hsinδ.2]
    have h5 := mul_le_mul_of_nonneg_right h4 hφ0.le
    linarith
  · intro h
    rw [h, one_mul]
    exact math_Atan2_pos _ _ hy
  · intro h
    rw [h, neg_one_mul, neg_mul]
    exact math_Atan2_neg _ _ (by linarith)

/-- The south corner of a search box is strictly south of the centre, for
`|lat| ≤ 80` and a radius in `(0, 100000]`. -/
theorem Destination_south_X_lt (lat lng r : ℝ) (hlat : |lat| ≤ 80)
    (hr : 0 < r ∧ r ≤ 100000) : (geo.Destination lat lng r 180).X < lat := by
  have hpi : 0 < Real.pi := Real.pi_pos
  have hne : Real.pi ≠ 0 := hpi.ne.symm
  obtain ⟨⟨hδ0, hδ1⟩, ⟨hsin2, -⟩, -, hcosφ⟩ := centre_numeric_facts lat r hlat hr
  obtain ⟨hl1, hl2⟩ := abs_le.mp hlat
  have hφ : lat * (Real.pi / 180) ∈ Set.Ioc (-(Real.pi / 2)) (Real.pi / 2) := by
    constructor
    · nlinarith
    · nlinarith
  have hcosδ := Real.one_sub_sq_div_two_le_cos (x := r / 6371000)
  have hsq : (r / 6371000) ^ 2 ≤ 100 / 6371 * (r / 6371000) := by nlinarith
  have h1 : Real.sin (lat * (Real.pi / 180)) * (Real.cos (r / 6371000) - 1) ≤
      1 - Real.cos (r / 6371000) := by
    nlinarith [Real.neg_one_le_sin (lat * (Real.pi / 180)), Real.cos_le_one (r / 6371000)]
  have h2 : Real.cos (lat * (Real.pi / 180)) * Real.sin (r / 6371000) * Real.cos 180 ≤
      -(1 / 2) * (17 / 100 * (r / 6371000 / 2)) := by
    have hprod : 17 / 100 * (r / 6371000 / 2) ≤
        Real.cos (lat * (Real.pi / 180)) * Real.sin (r / 6371000) :=
      mul_le_mul hcosφ hsin2 (by positivity) (by linarith)
    have hpos : 0 ≤ 17 / 100 * (r / 6371000 / 2) := by positivity
    nlinarith [cos_180_le]
  have hlt : Real.sin (lat * (Real.pi / 180)) * Real.cos (r / 6371000) +
      Real.cos (lat * (Real.pi / 180)) * Real.sin (r / 6371000) * Real.cos 180 <
      Real.sin (lat * (Real.pi / 180)) := by
    have h3 : (100 : ℝ) / 6371 ≤ 16 / 1000 := by norm_num
    nlinarith
  have harc := (Real.arcsin_lt_iff_lt_sin' hφ).mpr hlt
  rw [Destination_X_eq]
  have hk : 0 < 180 / Real.pi := by positivity
  have h4 := mul_lt_mul_of_pos_right harc hk
  have e : lat * (Real.pi / 180) * (180 / Real.pi) = lat := by field_simp
  rw [e] at h4
  exact h4

/-- Away from the antimeridian a small offset is not wrapped: for
`|lng| ≤ 170` and `|a| ≤ 1/6` the wrap-around step returns `lng·π/180 + a`. -/
theorem shifted_longitude (lng a : ℝ) (hlng : |lng| ≤ 170) (ha : |a| ≤ 1 / 6) :
    (math.Mod (lng * (Real.pi / 180) + a + 3 * Real.pi) (2 * Real.pi) - Real.pi) *
        (180 / Real.pi) = lng + a * (180 / Real.pi) := by
  have hpi : 0 < Real.pi := Real.pi_pos
  have hne : Real.pi ≠ 0 := hpi.ne.symm
  have h3 : (3 : ℝ) < Real.pi := Real.pi_gt_three
  obtain ⟨hl1, hl2⟩ := abs_le.mp hlng
  obtain ⟨ha1, ha2⟩ := abs_le.mp ha
  have h1 : -Real.pi ≤ lng * (Real.pi / 180) + a := by nlinarith
  have h2 : lng * (Real.pi / 180) + a < Real.pi := by nlinarith
  rw [wrap_longitude_id _ h1 h2]
  field_simp

/-- The east corner (sine of the bearing in radians equal to 1) lies strictly
east of the centre and the west corner (sine equal to -1) strictly west of it,
for `|lat| ≤ 80`, `|lng| ≤ 170` and a radius in `(0, 100000]`. -/
theorem Destination_side_Y (lat lng r b : ℝ) (hlat : |lat| ≤ 80) (hlng : |lng| ≤ 170)
    (hr : 0 < r ∧ r ≤ 100000) :
    (Real.sin (b * (Real.pi / 180)) = 1 → lng < (geo.Destination lat lng r b).Y) ∧
      (Real.sin (b * (Real.pi / 180)) = -1 → (geo.Destination lat lng r b).Y < lng) := by
  have hpi : 0 < Real.pi := Real.pi_pos
  have hne : Real.pi ≠ 0 := hpi.ne.symm
  have hk : 0 < 180 / Real.pi := by positivity
  obtain ⟨⟨hδ0, hδ1⟩, ⟨hsin2, hsin1⟩, hcosδ, hcosφ⟩ := centre_numeric_facts lat r hlat hr
  have hsinδ : 0 < Real.sin (r / 6371000) ∧ Real.sin (r / 6371000) ≤ 100 / 6371 :=
    ⟨by linarith, by linarith⟩
  have hc : -1 ≤ Real.cos b ∧ Real.cos b ≤ 1 := ⟨Real.neg_one_le_cos b, Real.cos_le_one b⟩
  have hX : (geo.Destination lat lng r b).X * (Real.pi / 180) =
      Real.arcsin (Real.sin (lat * (Real.pi / 180)) * Real.cos (r / 6371000) +
        Real.cos (lat * (Real.pi / 180)) * Real.sin (r / 6371000) * Real.cos b) := by
    rw [Destination_X_eq]
    field_simp
  constructor
  · intro hs
    obtain ⟨ha, hpos, -⟩ := side_angle_facts (lat * (Real.pi / 180)) (r / 6371000)
      (Real.cos b) 1 hcosφ hsinδ hcosδ hc (Or.inl rfl)
    rw [Destination_Y_eq, hX, hs, shifted_longitude _ _ hlng ha]
    have := mul_pos (hpos rfl) hk
    linarith
  · intro hs
    obtain ⟨ha, -, hneg⟩ := side_angle_facts (lat * (Real.pi / 180)) (r / 6371000)
      (Real.cos b) (-1) hcosφ hsinδ hcosδ hc (Or.inr rfl)
    rw [Destination_Y_eq, hX, hs, shifted_longitude _ _ hlng ha]
    have := mul_neg_of_neg_of_pos (hneg rfl) hk
    linarith

/-- The sines of the east and west bearings, converted to radians, are 1 and
-1. -/
theorem sin_east_west :
    Real.sin (90 * (Real.pi / 180)) = 1 ∧ Real.sin (270 * (Real.pi / 180)) = -1 := by
  constructor
  · have e : (90 : ℝ) * (Real.pi / 180) = Real.pi / 2 := by ring
    rw [e, Real.sin_pi_div_two]
  · have e : (270 : ℝ) * (Real.pi / 180) = Real.pi / 2 + Real.pi := by ring
    rw [e, Real.sin_add_pi, Real.sin_pi_div_two]

/-- The four strict inequalities between a centre and the corners of its
bounding box, for `|lat| ≤ 80`, `|lng| ≤ 170` and a radius in `(0, 100000]`. -/
theorem centre_inside_corners (lat lng r : ℝ) (hlat : |lat| ≤ 80) (hlng : |lng| ≤ 170)
    (hr : 0 < r ∧ r ≤ 100000) :
    (geo.Destination lat lng r 180).X < lat ∧ lat < (geo.Destination lat lng r 0).X ∧
      (geo.Destination lat lng r 270).Y < lng ∧ lng < (geo.Destination lat lng r 90).Y := by
  have hpi : 0 < Real.pi := Real.pi_pos
  obtain ⟨hl1, hl2⟩ := abs_le.mp hlat
  obtain ⟨⟨hδ0, hδ1⟩, -, -, -⟩ := centre_numeric_facts lat r hlat hr
  have hdeg : r / 6371000 * (180 / Real.pi) ≤ 1 := by
    have hq : (180 : ℝ) / Real.pi ≤ 60 := by
      rw [div_le_iff₀ hpi]
      linarith [Real.pi_gt_three]
    have hq0 : (0 : ℝ) ≤ 180 / Real.pi := by positivity
    have h3 : (100 : ℝ) / 6371 ≤ 1 / 60 := by norm_num
    nlinarith
  have hpos : 0 < r / 6371000 * (180 / Real.pi) := by positivity
  have hN := Destination_north_X lat lng r (by linarith) hr.1.le (by linarith)
  refine ⟨Destination_south_X_lt lat lng r hlat hr, by rw [hN]; linarith, ?_, ?_⟩
  · exact (Destination_side_Y lat lng r 270 hlat hlng hr).2 sin_east_west.2
  · exact (Destination_side_Y lat lng r 90 hlat hlng hr).1 sin_east_west.1

/-! ### A whole search on the SQLite repository -/

/-- What `Service.Search` returns on the SQLite repository over a table `rows`
and a connection without error: the rows inside the bounding box of the query,
filtered by the term as well when the term is not empty. -/
theorem Service_Search_sqlite (rows : List domain.Product) (q : domain.Query) :
    (service.Service.Search { products := sqlite.DB.Product } q
        (sqlite.New { items := rows, whereConditions := [], Error := none })).2 =
      if q.Term = "" then
        some (rows.filter (fun x =>
          (gorm.Condition.latLng (geo.Destination q.Lat q.Lng q.Radius 180).X
            (geo.Destination q.Lat q.Lng q.Radius 0).X
            (geo.Destination q.Lat q.Lng q.Radius 90).Y
            (geo.Destination q.Lat q.Lng q.Radius 270).Y).holds x), none)
      else
        some (rows.filter (fun x =>
          (gorm.Condition.latLng (geo.Destination q.Lat q.Lng q.Radius 180).X
            (geo.Destination q.Lat q.Lng q.Radius 0).X
            (geo.Destination q.Lat q.Lng q.Radius 90).Y
            (geo.Destination q.Lat q.Lng q.Radius 270).Y).holds x &&
          (gorm.Condition.itemNameLike ("%" ++ q.Term ++ "%")).holds x), none) := by
  by_cases hterm : q.Term = ""
  · simp [service.Service.Search, sqlite.DB.Product, sqlite.New, sqlite.DB.Search,
      sqlite.DB.Search.loop, sqlite.DB.Between, geo.BoundingBox, gorm.DB.Where,
      gorm.DB.Find, hterm]
  · simp [service.Service.Search, sqlite.DB.Product, sqlite.New, sqlite.DB.Search,
      sqlite.DB.Search.loop, sqlite.DB.Between, sqlite.DB.Like, geo.BoundingBox,
      gorm.DB.Where, gorm.DB.Find, hterm]

/-- In exact arithmetic, for a centre with `|lat| ≤ 80` and `|lng| ≤ 170` and a
radius `r` with `0 < r ≤ 100000`, a product `x` located exactly at `(lat, lng)`
lies strictly between the south and north corners of `BoundingBox lat lng r` in
latitude and strictly between the west and east corners in longitude, so the
spatial-only search returns it when it is a row of the table.  (In float64 the
strict inequalities fail for radii of a few nanometres, where a corner rounds
onto the centre.) -/
theorem centre_inside_own_bounding_box (lat lng r : ℝ) (hlat : |lat| ≤ 80)
    (hlng : |lng| ≤ 170) (hr : 0 < r ∧ r ≤ 100000) (x : domain.Product)
    (hx : x.Lat = lat ∧ x.Lng = lng) (rows : List domain.Product) (hmem : x ∈ rows) :
    (∃ north east south west, geo.BoundingBox lat lng r = [north, east, south, west] ∧
        (south.X < x.Lat ∧ x.Lat < north.X) ∧ (west.Y < x.Lng ∧ x.Lng < east.Y)) ∧
      ∃ result,
        (service.Service.Search { products := sqlite.DB.Product }
            { Term := "", Lat := lat, Lng := lng, Radius := r }
            (sqlite.New { items := rows, whereConditions := [], Error := none })).2 =
          some (result, none) ∧
        x ∈ result := by
  obtain ⟨h1, h2, h3, h4⟩ := centre_inside_corners lat lng r hlat hlng hr
  constructor
  · refine ⟨_, _, _, _, rfl, ?_, ?_⟩
    · rw [hx.1]
      exact ⟨h1, h2⟩
    · rw [hx.2]
      exact ⟨h3, h4⟩
  · refine ⟨rows.filter (fun x =>
        (gorm.Condition.latLng (geo.Destination lat lng r 180).X (geo.Destination lat lng r 0).X
          (geo.Destination lat lng r 90).Y (geo.Destination lat lng r 270).Y).holds x), ?_, ?_⟩
    · rw [Service_Search_sqlite]
      exact if_pos rfl
    · rw [List.mem_filter, latLng_holds_iff, hx.1, hx.2]
      exact ⟨hmem, h1, h2, h3, h4⟩

/-! ### The HTTP handler -/

/-- The example request of the handler test, as parsed query parameters. -/
theorem Values_Get_example :
    url.Values.Get [("radius", ["5"]), ("lng", ["10"]), ("lat", ["15"]), ("term", ["camera"])]
        "lat" = "15" ∧
      url.Values.Get [("radius", ["5"]), ("lng", ["10"]), ("lat", ["15"]), ("term", ["camera"])]
        "lng" = "10" ∧
      url.Values.Get [("radius", ["5"]), ("lng", ["10"]), ("lat", ["15"]), ("term", ["camera"])]
        "radius" = "5" ∧
      url.Values.Get [("radius", ["5"]), ("lng", ["10"]), ("lat", ["15"]), ("term", ["camera"])]
        "term" = "camera" := by
  simp [url.Values.Get, List.lookup]

/-- C14: for every set of query parameters, `validateSearchInput` returns an
error exactly when one of `lat`, `lng`, `radius` is missing (empty) or is not
parsed by `ParseFloat`; otherwise it returns the query whose `Lat`, `Lng`,
`Radius` are the parsed values and whose `Term` is the value of `term` (the
empty string when `term` is absent).  For `radius=5&lng=10&lat=15&term=camera`
the query is `{Term: camera, Lat: 15, Lng: 10, Radius: 5}`. -/
theorem validateSearchInput_spec (ParseFloat : String → Except Error ℝ) (v : url.Values) :
    ((∃ err, http.validateSearchInput ParseFloat v = Except.error err) ↔
        ((v.Get "lat" = "" ∨ ∃ e, ParseFloat (v.Get "lat") = Except.error e) ∨
         (v.Get "lng" = "" ∨ ∃ e, ParseFloat (v.Get "lng") = Except.error e) ∨
         (v.Get "radius" = "" ∨ ∃ e, ParseFloat (v.Get "radius") = Except.error e))) ∧
      (∀ q, http.validateSearchInput ParseFloat v = Except.ok q →
        ParseFloat (v.Get "lat") = Except.ok q.Lat ∧
          ParseFloat (v.Get "lng") = Except.ok q.Lng ∧
          ParseFloat (v.Get "radius") = Except.ok q.Radius ∧
          q.Term = v.Get "term") ∧
      (List.lookup "term" v = none → v.Get "term" = "") ∧
      (ParseFloat "15" = Except.ok 15 → ParseFloat "10" = Except.ok 10 →
        ParseFloat "5" = Except.ok 5 →
        http.validateSearchInput ParseFloat
            [("radius", ["5"]), ("lng", ["10"]), ("lat", ["15"]), ("term", ["camera"])] =
          Except.ok { Term := "camera", Lat := 15, Lng := 10, Radius := 5 }) := by
  refine ⟨?_, ?_, ?_, ?_⟩
  · unfold http.validateSearchInput
    by_cases h1 : v.Get "lat" = ""
    · simp [h1]
    rcases hp1 : ParseFloat (v.Get "lat") with e1 | lat
    · simp [h1]
    by_cases h2 : v.Get "lng" = ""
    · simp [h1, h2]
    rcases hp2 : ParseFloat (v.Get "lng") with e2 | lng
    · simp [h1, h2]
    by_cases h3 : v.Get "radius" = ""
    · simp [h1, h2, h3]
    rcases hp3 : ParseFloat (v.Get "radius") with e3 | radius
    · simp [h1, h2, h3]
    · simp [h1, h2, h3]
  · intro q
    unfold http.validateSearchInput
    by_cases h1 : v.Get "lat" = ""
    · simp [h1]
    rcases hp1 : ParseFloat (v.Get "lat") with e1 | lat
    · simp [h1]
    by_cases h2 : v.Get "lng" = ""
    · simp [h1, h2]
    rcases hp2 : ParseFloat (v.Get "lng") with e2 | lng
    · simp [h1, h2]
    by_cases h3 : v.Get "radius" = ""
    · simp [h1, h2, h3]
    rcases hp3 : ParseFloat (v.Get "radius") with e3 | radius
    · simp [h1, h2, h3]
    · simp only [h1, h2, h3, if_false, Except.ok.injEq]
      intro hq
      subst hq
      exact ⟨rfl, rfl, rfl, rfl⟩
  · intro h
    simp [url.Values.Get, h]
  · intro h15 h10 h5
    obtain ⟨g1, g2, g3, g4⟩ := Values_Get_example
    unfold http.validateSearchInput
    rw [g1, g2, g3, g4, h15, h10, h5]
    simp

/-- C14, with a concrete parser that reads the three numerals of the example:
the request `radius=5&lng=10&lat=15&term=camera` gives the query
`{Term: camera, Lat: 15, Lng: 10, Radius: 5}`. -/
theorem validateSearchInput_spec_witness :
    http.validateSearchInput
        (fun s =>
          if s = "15" then Except.ok 15
          else if s = "10" then Except.ok 10
          else if s = "5" then Except.ok 5
          else Except.error (fmt.Errorf "invalid syntax"))
        [("radius", ["5"]), ("lng", ["10"]), ("lat", ["15"]), ("term", ["camera"])] =
      Except.ok { Term := "camera", Lat := 15, Lng := 10, Radius := 5 } :=
  (validateSearchInput_spec
      (fun s =>
        if s = "15" then Except.ok 15
        else if s = "10" then Except.ok 10
        else if s = "5" then Except.ok 5
        else Except.error (fmt.Errorf "invalid syntax"))
      [("radius", ["5"]), ("lng", ["10"]), ("lat", ["15"]), ("term", ["camera"])]).2.2.2
    (by simp) (by simp) (by simp)

/-- Neither error that `Service.Search` can return is or wraps
`repository.ErrNotFound`: the sentinels of the two packages are different
values with the same text. -/
theorem service_errors_are_not_repository_not_found :
    errors.Is (Error.Errorf "failed to search products: %w" service.ErrRequestFailed)
        repository.ErrNotFound = false ∧
      errors.Is (Error.Errorf "product not found: %w" service.ErrNotFound)
        repository.ErrNotFound = false := by
  simp [errors.Is, service.ErrRequestFailed, service.ErrNotFound, repository.ErrNotFound]

/-- C15 (the code at the failing input): the request `lat=15&lng=10&radius=5` is
valid, and the storage collaborator answers `Search` with
`repository.ErrNotFound`.  `Service.Search` then returns an error wrapping
`service.ErrNotFound`, on which the handler's check
`errors.Is(err, repository.ErrNotFound)` fails, and the handler responds with
status 500.  More generally no error returned by `Service.Search`, over any
collaborator, passes that check. -/
theorem Handler_Search_not_found_gives_500 :
    http.Handler.Search
        (fun _ => Except.ok [("lat", ["15"]), ("lng", ["10"]), ("radius", ["5"])])
        (fun s =>
          if s = "15" then Except.ok 15
          else if s = "10" then Except.ok 10
          else if s = "5" then Except.ok 5
          else Except.error (fmt.Errorf "invalid syntax"))
        { service := http.Service.ofService
            { products :=
                ({ Search := fun _ st => (st, some ([], some repository.ErrNotFound))
                   Like := fun _ st => ((), st)
                   Between := fun _ st => ((), st) } : repository.Product Unit Unit) } }
        "lat=15&lng=10&radius=5" () =
      ((), some { Status := 500,
                  Body := http.Body.ErrorStatus
                    (Error.Errorf "product not found: %w" service.ErrNotFound) }) ∧
      errors.Is (Error.Errorf "product not found: %w" service.ErrNotFound)
        repository.ErrNotFound = false ∧
      ∀ (σ F : Type) (r : repository.Product σ F) (q : domain.Query) (st st1 : σ)
        (rows : List domain.Product) (e1 : Error),
        service.Service.Search { products := r } q st = (st1, some (rows, some e1)) →
          errors.Is e1 repository.ErrNotFound = false := by
  obtain ⟨k1, k2⟩ := service_errors_are_not_repository_not_found
  refine ⟨?_, k2, ?_⟩
  · have hv : http.validateSearchInput
        (fun s =>
          if s = "15" then Except.ok 15
          else if s = "10" then Except.ok 10
          else if s = "5" then Except.ok 5
          else Except.error (fmt.Errorf "invalid syntax"))
        [("lat", ["15"]), ("lng", ["10"]), ("radius", ["5"])] =
        Except.ok { Term := "", Lat := 15, Lng := 10, Radius := 5 } := by
      simp [http.validateSearchInput, url.Values.Get, List.lookup]
    have hnf : errors.Is repository.ErrNotFound repository.ErrNotFound = true := by
      simp [errors.Is, repository.ErrNotFound]
    simp only [http.Handler.Search, hv, http.Service.ofService, service.Service.Search]
    simp [hnf, k2, http.writeError, http.writeJSON, http.StatusInternalServerError]
  · intro σ F r q st st1 rows e1
    simp only [service.Service.Search]
    rcases r.Search _ _ with ⟨st2, _ | ⟨rows1, _ | e2⟩⟩
    · simp
    · simp
    · by_cases he : errors.Is e2 repository.ErrNotFound = true
      · simp only [he, Bool.not_true, Bool.false_eq_true, if_false, Prod.mk.injEq,
          Option.some.injEq, and_imp]
        intro _ _ h
        rw [← h]
        exact k2
      · simp only [Bool.not_eq_true] at he
        simp only [he, Bool.not_false, if_true, Prod.mk.injEq, Option.some.injEq, and_imp]
        intro _ _ h
        rw [← h]
        exact k1

/-! ### A search box across the antimeridian -/

/-- On the unit circle `math.Atan2` returns the angle itself, for an angle in
`(-π, π]`. -/
theorem math_Atan2_sin_cos (θ : ℝ) (h1 : -Real.pi < θ) (h2 : θ ≤ Real.pi) :
    math.Atan2 (Real.sin θ) (Real.cos θ) = θ := by
  have e : (⟨Real.cos θ, Real.sin θ⟩ : ℂ) =
      Complex.cos (θ : ℂ) + Complex.sin (θ : ℂ) * Complex.I := by
    apply Complex.ext <;> simp [← Complex.ofReal_cos, ← Complex.ofReal_sin]
  unfold math.Atan2
  rw [e]
  exact Complex.arg_cos_add_sin_mul_I ⟨h1, h2⟩

/-- The east and west corners of the box of radius 50000 around
`(0, 179.9999)`: the east corner is wrapped to `179.9999 + δ·180/π - 360`, the
west corner is `179.9999 - δ·180/π`, with `δ = 50000/6371000`. -/
theorem antimeridian_corners :
    (geo.Destination 0 179.9999 50000 90).Y =
        179.9999 + 50000 / 6371000 * (180 / Real.pi) - 360 ∧
      (geo.Destination 0 179.9999 50000 270).Y =
        179.9999 - 50000 / 6371000 * (180 / Real.pi) := by
  have hpi : 0 < Real.pi := Real.pi_pos
  have hne : Real.pi ≠ 0 := hpi.ne.symm
  have h3 : (3 : ℝ) < Real.pi := Real.pi_gt_three
  have h4 : Real.pi ≤ 4 := Real.pi_le_four
  have hδ : (50000 : ℝ) / 6371000 = 50 / 6371 := by norm_num
  constructor
  · rw [Destination_Y_eq, sin_east_west.1]
    simp only [zero_mul, Real.sin_zero, Real.cos_zero, one_mul, mul_one, sub_zero]
    rw [math_Atan2_sin_cos _ (by rw [hδ]; norm_num; linarith) (by rw [hδ]; norm_num; linarith)]
    rw [math_Mod_eq_sub _ _ 2 (by linarith)
      (by rw [hδ]; push_cast; norm_num; nlinarith)
      (by rw [hδ]; push_cast; norm_num; nlinarith)]
    push_cast
    field_simp
    ring
  · rw [Destination_Y_eq, sin_east_west.2]
    simp only [zero_mul, Real.sin_zero, Real.cos_zero, one_mul, mul_one, sub_zero, neg_mul]
    rw [← Real.sin_neg, ← Real.cos_neg (50000 / 6371000)]
    rw [math_Atan2_sin_cos _ (by rw [hδ]; norm_num; linarith) (by rw [hδ]; norm_num; linarith)]
    rw [wrap_longitude_id _ (by rw [hδ]; norm_num; nlinarith) (by rw [hδ]; norm_num; nlinarith)]
    field_simp
    ring

/-- C16: for the centre `(0, 179.9999)` and radius 50000 the east corner of
`BoundingBox 0 179.9999 50000` has a smaller longitude than the west corner, so
no product, at whatever coordinates, satisfies the spatial predicate of that
box, and a search with that query returns no rows (and no error) for every
table and every term. -/
theorem antimeridian_search_is_empty :
    (∃ north east south west,
        geo.BoundingBox 0 179.9999 50000 = [north, east, south, west] ∧
        east.Y < west.Y ∧
        ∀ x : domain.Product,
          (gorm.Condition.latLng south.X north.X east.Y west.Y).holds x = false) ∧
      ∀ (rows : List domain.Product) (term : String),
        (service.Service.Search { products := sqlite.DB.Product }
            { Term := term, Lat := 0, Lng := 179.9999, Radius := 50000 }
            (sqlite.New { items := rows, whereConditions := [], Error := none })).2 =
          some ([], none) := by
  have hpi : 0 < Real.pi := Real.pi_pos
  obtain ⟨hE, hW⟩ := antimeridian_corners
  have hlt : (geo.Destination 0 179.9999 50000 90).Y <
      (geo.Destination 0 179.9999 50000 270).Y := by
    rw [hE, hW]
    have hq : (180 : ℝ) / Real.pi ≤ 60 := by
      rw [div_le_iff₀ hpi]
      linarith [Real.pi_gt_three]
    have hq0 : (0 : ℝ) ≤ 180 / Real.pi := by positivity
    nlinarith
  have hfalse : ∀ x : domain.Product,
      (gorm.Condition.latLng (geo.Destination 0 179.9999 50000 180).X
        (geo.Destination 0 179.9999 50000 0).X (geo.Destination 0 179.9999 50000 90).Y
        (geo.Destination 0 179.9999 50000 270).Y).holds x = false := by
    intro x
    rw [Bool.eq_false_iff]
    intro h
    rw [latLng_holds_iff] at h
    linarith [h.2.2.1, h.2.2.2]
  refine ⟨⟨_, _, _, _, rfl, hlt, hfalse⟩, ?_⟩
  intro rows term
  rw [Service_Search_sqlite]
  have hnil1 : rows.filter (fun x =>
      (gorm.Condition.latLng (geo.Destination 0 179.9999 50000 180).X
        (geo.Destination 0 179.9999 50000 0).X (geo.Destination 0 179.9999 50000 90).Y
        (geo.Destination 0 179.9999 50000 270).Y).holds x) = [] := by
    rw [List.filter_eq_nil_iff]
    intro a _
    rw [hfalse a]
    simp
  have hnil2 : rows.filter (fun x =>
      (gorm.Condition.latLng (geo.Destination 0 179.9999 50000 180).X
        (geo.Destination 0 179.9999 50000 0).X (geo.Destination 0 179.9999 50000 90).Y
        (geo.Destination 0 179.9999 50000 270).Y).holds x &&
      (gorm.Condition.itemNameLike ("%" ++ term ++ "%")).holds x) = [] := by
    rw [List.filter_eq_nil_iff]
    intro a _
    rw [hfalse a]
    simp
  split_ifs
  · simp only [hnil1]
  · simp only [hnil2]

/-! ### `geo.Destination` on float64 arithmetic -/

/-- Exact arithmetic satisfies the laws of float64 arithmetic. -/
theorem float64_exact_Laws : float64.exact.Laws := by
  have hpi : Real.pi ≠ 0 := Real.pi_ne_zero
  refine
    { round_mono := fun x y h => h
      round_neg := fun x => rfl
      round_round := fun x => rfl
      round_one := rfl
      two_pi := rfl
      deg_180 := ?_
      rad_180 := ?_
      rad_90 := ?_
      Sin_zero := Real.sin_zero
      Asin_none := ?_
      Asin_range := ?_
      Atan2_range := ?_ }
  · show 180 * (Real.pi / 180) = Real.pi
    ring
  · show Real.pi * (180 / Real.pi) = 180
    field_simp
  · show Real.pi / 2 * (180 / Real.pi) = 90
    field_simp
    ring
  · intro x
    show (if |x| ≤ 1 then some (Real.arcsin x) else none) = none ↔ 1 < |x|
    by_cases h : |x| ≤ 1
    · simp [h, not_lt.mpr h]
    · simp [h, not_le.mp h]
  · intro x v h
    show |v| ≤ Real.pi / 2
    have h' : (if |x| ≤ 1 then some (Real.arcsin x) else none) = some v := h
    by_cases hx : |x| ≤ 1
    · rw [if_pos hx] at h'
      have hv : Real.arcsin x = v := Option.some.inj h'
      rw [← hv, abs_le]
      exact ⟨Real.neg_pi_div_two_le_arcsin x, Real.arcsin_le_pi_div_two x⟩
    · rw [if_neg hx] at h'
      exact absurd h' (by simp)
  · intro y x
    show |math.Atan2 y x| ≤ Real.pi
    rw [abs_le]
    exact math_Atan2_bounds y x

/-- Rounding keeps 0. -/
theorem float64_round_zero (A : float64.Arith) (hA : A.Laws) : A.round 0 = 0 := by
  have h := hA.round_neg 0
  rw [neg_zero] at h
  linarith

/-- Rounding keeps bounds: from `|x| ≤ B` follows `|round x| ≤ round B`. -/
theorem float64_round_abs_le (A : float64.Arith) (hA : A.Laws) (x B : ℝ) (h : |x| ≤ B) :
    |A.round x| ≤ A.round B := by
  obtain ⟨h1, h2⟩ := abs_le.mp h
  rw [abs_le]
  constructor
  · rw [← hA.round_neg]
    exact hA.round_mono _ _ h1
  · exact hA.round_mono _ _ h2

/-- The rounded constants are not negative, and `math.Pi` is at least 1. -/
theorem float64_round_constants (A : float64.Arith) (hA : A.Laws) :
    1 ≤ A.round Real.pi ∧ 0 ≤ A.round (Real.pi / 180) ∧ 0 ≤ A.round (180 / Real.pi) := by
  have hpi : 0 < Real.pi := Real.pi_pos
  have h0 := float64_round_zero A hA
  refine ⟨?_, ?_, ?_⟩
  · rw [← hA.round_one]
    exact hA.round_mono _ _ (by linarith [Real.pi_gt_three])
  · rw [← h0]
    exact hA.round_mono _ _ (by positivity)
  · rw [← h0]
    exact hA.round_mono _ _ (by positivity)

/-- The shape of a result of `Destination` that is not NaN: the latitude is the
rounded product of the arcsine and `float64(180/π)`, the longitude comes out of
the wrap-around step applied to the start longitude plus an angle returned by
`math.Atan2`. -/
theorem Destination64_eq_some (A : float64.Arith) (lat lng distance bearing : ℝ)
    (p : domain.Point) (h : geo64.Destination A lat lng distance bearing = some p) :
    ∃ lat2 y x : ℝ,
      A.Asin (A.round
        (A.round (A.Sin (A.round (lat * A.round (Real.pi / 180))) *
            A.Cos (A.round (distance / 6371000))) +
          A.round (A.round (A.Cos (A.round (lat * A.round (Real.pi / 180))) *
            A.Sin (A.round (distance / 6371000))) * A.Cos bearing))) = some lat2 ∧
      p.X = A.round (lat2 * A.round (180 / Real.pi)) ∧
      p.Y = A.round (A.round (math.Mod
          (A.round (A.round (A.round (lng * A.round (Real.pi / 180)) + A.Atan2 y x) +
            A.round (3 * Real.pi)))
          (A.round (2 * Real.pi)) - A.round Real.pi) * A.round (180 / Real.pi)) := by
  have e1 : (180.0 : ℝ) = 180 := by norm_num
  simp only [geo64.Destination, geo.earthRadius, e1] at h
  split at h
  · exact absurd h (by simp)
  · rename_i lat2 hasin
    have hp := Option.some.inj h
    subst hp
    exact ⟨lat2, _, _, hasin, rfl, rfl⟩

/-- In exact arithmetic the float64 reading of `Destination` never returns NaN
and is the real-number reading `geo.Destination`. -/
theorem Destination64_exact (lat lng distance bearing : ℝ) :
    geo64.Destination float64.exact lat lng distance bearing =
      some (geo.Destination lat lng distance bearing) := by
  have hc : -1 ≤ Real.cos bearing ∧ Real.cos bearing ≤ 1 :=
    ⟨Real.neg_one_le_cos bearing, Real.cos_le_one bearing⟩
  have harg := asin_argument_bounds (lat * (Real.pi / 180.0)) (distance / geo.earthRadius)
    (Real.cos bearing) hc
  have habs : |Real.sin (lat * (Real.pi / 180.0)) * Real.cos (distance / geo.earthRadius) +
      Real.cos (lat * (Real.pi / 180.0)) * Real.sin (distance / geo.earthRadius) *
        Real.cos bearing| ≤ 1 := abs_le.mpr harg
  simp only [geo64.Destination, float64.exact, geo.Destination, if_pos habs]

/-- C8 (what the code guarantees): on float64 arithmetic, `Destination` returns
NaN exactly when the rounded argument of `math.Asin` lies outside `[-1, 1]`;
every other result has its latitude `X` in `[-90, 90]`.  This holds for all
arguments, in particular for a start latitude in `[-90, 90]`, a start
longitude in `(-180, 180]`, a distance `≥ 0` and a bearing in `[0, 360)`. -/
theorem Destination64_latitude_nan_or_in_range (A : float64.Arith) (hA : A.Laws)
    (lat lng distance bearing : ℝ) :
    (geo64.Destination A lat lng distance bearing = none ↔
        1 < |A.round
          (A.round (A.Sin (A.round (lat * A.round (Real.pi / 180))) *
              A.Cos (A.round (distance / 6371000))) +
            A.round (A.round (A.Cos (A.round (lat * A.round (Real.pi / 180))) *
              A.Sin (A.round (distance / 6371000))) * A.Cos bearing))|) ∧
      ∀ p, geo64.Destination A lat lng distance bearing = some p → -90 ≤ p.X ∧ p.X ≤ 90 := by
  constructor
  · have e1 : (180.0 : ℝ) = 180 := by norm_num
    simp only [geo64.Destination, geo.earthRadius, e1]
    split
    · rename_i hasin
      exact ⟨fun _ => (hA.Asin_none _).mp hasin, fun _ => rfl⟩
    · rename_i lat2 hasin
      constructor
      · intro h
        exact absurd h (by simp)
      · intro h
        have hnone := (hA.Asin_none _).mpr h
        rw [hasin] at hnone
        exact absurd hnone (by simp)
  · intro p h
    obtain ⟨lat2, y, x, hasin, hX, -⟩ := Destination64_eq_some A lat lng distance bearing p h
    obtain ⟨-, -, hk⟩ := float64_round_constants A hA
    have hlat2 := hA.Asin_range _ _ hasin
    have hprod : |lat2 * A.round (180 / Real.pi)| ≤
        A.round (Real.pi / 2) * A.round (180 / Real.pi) := by
      rw [abs_mul, abs_of_nonneg hk]
      exact mul_le_mul_of_nonneg_right hlat2 hk
    have hr := float64_round_abs_le A hA _ _ hprod
    rw [hA.rad_90, ← hX] at hr
    exact abs_le.mp hr

/-- C8, in exact arithmetic at the input where float64 returns NaN: there
`Destination 76 0 1556729 0` is a number, and its latitude lies in
`[-90, 90]`. -/
theorem Destination64_latitude_nan_or_in_range_witness :
    geo64.Destination float64.exact 76 0 1556729 0 =
        some (geo.Destination 76 0 1556729 0) ∧
      -90 ≤ (geo.Destination 76 0 1556729 0).X ∧ (geo.Destination 76 0 1556729 0).X ≤ 90 :=
  ⟨Destination64_exact 76 0 1556729 0,
    (Destination64_latitude_nan_or_in_range float64.exact float64_exact_Laws
      76 0 1556729 0).2 _ (Destination64_exact 76 0 1556729 0)⟩

/-- C9 (amended): on float64 arithmetic, for a start longitude in
`(-180, 180]` and every start latitude, distance and bearing (in particular a
latitude in `[-90, 90]`, a distance `≥ 0` and a bearing in `[0, 360)`), the
longitude `Y` of `Destination lat lng distance bearing`, when the result is not
NaN, lies in the closed interval `[-180, 180]`. -/
theorem Destination64_longitude_in_range (A : float64.Arith) (hA : A.Laws)
    (lat lng distance bearing : ℝ) (hlng : -180 < lng ∧ lng ≤ 180) (p : domain.Point)
    (h : geo64.Destination A lat lng distance bearing = some p) :
    -180 ≤ p.Y ∧ p.Y ≤ 180 := by
  obtain ⟨lat2, y, x, -, -, hY⟩ := Destination64_eq_some A lat lng distance bearing p h
  obtain ⟨hP1, hc, hk⟩ := float64_round_constants A hA
  have h0 := float64_round_zero A hA
  have hT : A.round (2 * Real.pi) = 2 * A.round Real.pi := hA.two_pi
  -- the start longitude in radians
  have hlng1 : |A.round (lng * A.round (Real.pi / 180))| ≤ A.round Real.pi := by
    have hx : |lng * A.round (Real.pi / 180)| ≤ 180 * A.round (Real.pi / 180) := by
      rw [abs_mul, abs_of_nonneg hc]
      exact mul_le_mul_of_nonneg_right (abs_le.mpr ⟨hlng.1.le, hlng.2⟩) hc
    have hr := float64_round_abs_le A hA _ _ hx
    rw [hA.deg_180] at hr
    exact hr
  -- plus the angle of `math.Atan2`
  have hlng2 : |A.round (A.round (lng * A.round (Real.pi / 180)) + A.Atan2 y x)| ≤
      2 * A.round Real.pi := by
    have hx : |A.round (lng * A.round (Real.pi / 180)) + A.Atan2 y x| ≤
        A.round (2 * Real.pi) := by
      rw [hT]
      have := abs_add (A.round (lng * A.round (Real.pi / 180))) (A.Atan2 y x)
      linarith [hA.Atan2_range y x]
    have hr := float64_round_abs_le A hA _ _ hx
    rw [hA.round_round, hT] at hr
    exact hr
  -- the dividend of `math.Mod` is not negative
  have hs : 0 ≤ A.round (A.round (A.round (lng * A.round (Real.pi / 180)) + A.Atan2 y x) +
      A.round (3 * Real.pi)) := by
    have h3 : A.round (2 * Real.pi) ≤ A.round (3 * Real.pi) :=
      hA.round_mono _ _ (by linarith [Real.pi_pos])
    rw [← h0]
    apply hA.round_mono
    have := (abs_le.mp hlng2).1
    linarith
  have hTpos : 0 < A.round (2 * Real.pi) := by rw [hT]; linarith
  obtain ⟨hm1, hm2⟩ := math_Mod_bounds _ _ hs hTpos
  -- after subtracting `math.Pi`
  have ht : |A.round (math.Mod
      (A.round (A.round (A.round (lng * A.round (Real.pi / 180)) + A.Atan2 y x) +
        A.round (3 * Real.pi)))
      (A.round (2 * Real.pi)) - A.round Real.pi)| ≤ A.round Real.pi := by
    have hx : |math.Mod
        (A.round (A.round (A.round (lng * A.round (Real.pi / 180)) + A.Atan2 y x) +
          A.round (3 * Real.pi)))
        (A.round (2 * Real.pi)) - A.round Real.pi| ≤ A.round Real.pi := by
      rw [abs_le]
      constructor
      · linarith
      · linarith
    have hr := float64_round_abs_le A hA _ _ hx
    rw [hA.round_round] at hr
    exact hr
  -- in degrees
  have hprod : |A.round (math.Mod
      (A.round (A.round (A.round (lng * A.round (Real.pi / 180)) + A.Atan2 y x) +
        A.round (3 * Real.pi)))
      (A.round (2 * Real.pi)) - A.round Real.pi) * A.round (180 / Real.pi)| ≤
      A.round Real.pi * A.round (180 / Real.pi) := by
    rw [abs_mul, abs_of_nonneg hk]
    exact mul_le_mul_of_nonneg_right ht hk
  have hr := float64_round_abs_le A hA _ _ hprod
  rw [hA.rad_180, ← hY] at hr
  exact abs_le.mp hr

/-- C9 (amended), in exact arithmetic at a concrete input: 50 metres due east
of a London coordinate. -/
theorem Destination64_longitude_in_range_witness :
    geo64.Destination float64.exact 51.509865 (-0.118092) 50 90 =
        some (geo.Destination 51.509865 (-0.118092) 50 90) ∧
      -180 ≤ (geo.Destination 51.509865 (-0.118092) 50 90).Y ∧
      (geo.Destination 51.509865 (-0.118092) 50 90).Y ≤ 180 :=
  ⟨Destination64_exact 51.509865 (-0.118092) 50 90,
    Destination64_longitude_in_range float64.exact float64_exact_Laws
      51.509865 (-0.118092) 50 90 ⟨by norm_num, by norm_num⟩ _
      (Destination64_exact 51.509865 (-0.118092) 50 90)⟩

/-- With distance 0 the float64 reading of `Destination` does not depend on the
bearing. -/
theorem Destination64_zero_bearing (A : float64.Arith) (hA : A.Laws) (lat lng bearing : ℝ) :
    geo64.Destination A lat lng 0 bearing = geo64.Destination A lat lng 0 0 := by
  have h0 := float64_round_zero A hA
  simp only [geo64.Destination, zero_div, h0, hA.Sin_zero, mul_zero, zero_mul, add_zero]

/-- C10 (amended): on float64 arithmetic, for every latitude and longitude (in
particular a latitude in `[-90, 90]` and a longitude in `(-180, 180]`),
`BoundingBox lat lng 0` returns four points that are equal to one another: each
is `Destination lat lng 0 0`, the corner at radius 0 being the same at every
bearing. -/
theorem BoundingBox64_zero_radius (A : float64.Arith) (hA : A.Laws) (lat lng : ℝ) :
    geo64.BoundingBox A lat lng 0 = List.replicate 4 (geo64.Destination A lat lng 0 0) := by
  simp only [geo64.BoundingBox, Destination64_zero_bearing A hA lat lng 90,
    Destination64_zero_bearing A hA lat lng 180, Destination64_zero_bearing A hA lat lng 270,
    List.replicate]

/-- C10 (amended), in exact arithmetic at the London coordinate of the tests. -/
theorem BoundingBox64_zero_radius_witness :
    geo64.BoundingBox float64.exact 51.509865 (-0.118092) 0 =
      List.replicate 4 (geo64.Destination float64.exact 51.509865 (-0.118092) 0 0) :=
  BoundingBox64_zero_radius float64.exact float64_exact_Laws 51.509865 (-0.118092)
